import Mathlib

/-!
# Verification of the Storyteller Box control layer

Shallow embedding, in Lean 4, of the real-time control layer of the
"storiellai" storyteller appliance, together with proofs of the testable
properties stated in its specification.

The embedding covers:

* the gesture recognizer `RealButton.get_event` of `src/hardware/hal.py`
  (debouncing plus the tap / double-tap / long-press event state machine);
* the LED pattern scheduler `LedPatternManager` of `src/utils/led_utils.py`
  (`set_pattern` and `update`);
* the story selection helpers `pick_story` (`src/utils/story_utils.py`) and
  `select_story_for_time` (`src/utils/time_utils.py`);
* one iteration of the supervisory main loop of `src/box.py`.

Conventions of the embedding:

* Wall-clock instants (`time.monotonic()` / `time.time()` values) are
  modelled as integers for the button machine and as rationals for the LED
  scheduler and supervisor; every guard in the source is an order
  comparison, which both carry faithfully.
* The GPIO line of the button is active low (`GPIO.LOW` = pressed); the
  embedding uses `Bool` with `true` = pressed, so every comparison of raw
  levels in the source is translated verbatim up to this fixed renaming.
* `random.choice` receives its random index as an explicit argument; code
  that can raise a Python exception returns `Except`.
-/

/-! ## Gesture recognizer (`RealButton.get_event`, src/hardware/hal.py)

`hal.py` repeats the same `get_event` body verbatim several times inside
`RealButton`; Python keeps only the last definition, and all copies are
identical, so one embedding covers them all. -/

/-- Button event values: `BUTTON_NO_EVENT`, `BUTTON_TAP`,
`BUTTON_DOUBLE_TAP`, `BUTTON_LONG_PRESS` (hal.py lines 121 through 124). -/
inductive BtnEvent
  | noEvent | tap | doubleTap | longPress
deriving DecidableEq, Repr

/-- Values of `RealButton._button_event_state`:
`"IDLE"`, `"PRESSED"`, `"WAITING_FOR_SECOND_TAP"`. -/
inductive EvState
  | idle | pressed | waitingSecondTap
deriving DecidableEq, Repr

/-- The timing configuration of `RealButton.__init__`:
`long_press_duration`, `double_tap_window`, `debounce_time`. -/
structure BtnCfg where
  longPressDuration : Int
  doubleTapWindow : Int
  debounceTime : Int
deriving DecidableEq, Repr

/-- The mutable fields of `RealButton` used by `get_event`.
`physicalPressed` is `_physical_button_state`, `debouncedPressed` is
`_debounced_button_state` (both with `true` = `GPIO.LOW` = pressed),
`lastStateChangeTime` is `_last_state_change_time`, `evState` is
`_button_event_state`, `firstPressTime` is `_first_press_time`,
`firstReleaseTime` is `_first_release_time`. -/
structure ButtonState where
  physicalPressed : Bool
  debouncedPressed : Bool
  lastStateChangeTime : Int
  evState : EvState
  firstPressTime : Int
  firstReleaseTime : Int
deriving DecidableEq, Repr

/-- Initial state set by `RealButton.__init__`: line released
(`GPIO.HIGH`), timers at 0, event machine `IDLE`. -/
def initButtonState : ButtonState :=
  { physicalPressed := false
    debouncedPressed := false
    lastStateChangeTime := 0
    evState := .idle
    firstPressTime := 0
    firstReleaseTime := 0 }

/-- One call of `RealButton.get_event` (hal.py): debouncing of the raw
line, the debounced-edge event state machine, and the long-press / tap
timeout logic, in source order.  `currentTime` is `time.monotonic()`,
`rawPressed` the raw GPIO sample (`true` = pressed = `GPIO.LOW`). -/
def getEvent (cfg : BtnCfg) (s0 : ButtonState) (currentTime : Int)
    (rawPressed : Bool) : ButtonState × BtnEvent :=
  -- debouncing logic: a raw change resets the debounce timer
  let s1 := if rawPressed ≠ s0.physicalPressed then
      { s0 with physicalPressed := rawPressed
                lastStateChangeTime := currentTime }
    else s0
  -- once the line is stable past debounce_time, confirm the new state and
  -- run the event state machine on the confirmed edge
  let p :=
    if currentTime - s1.lastStateChangeTime > cfg.debounceTime ∧
        s1.debouncedPressed ≠ s1.physicalPressed then
      let s2 := { s1 with debouncedPressed := s1.physicalPressed }
      if s2.debouncedPressed then
        -- confirmed press
        match s2.evState with
        | .idle =>
            ({ s2 with evState := .pressed, firstPressTime := currentTime },
              BtnEvent.noEvent)
        | .waitingSecondTap =>
            if currentTime - s2.firstPressTime < cfg.doubleTapWindow then
              ({ s2 with evState := .idle }, BtnEvent.doubleTap)
            else
              -- too late for a double tap: new press sequence
              ({ s2 with evState := .pressed, firstPressTime := currentTime },
                BtnEvent.noEvent)
        | .pressed => (s2, BtnEvent.noEvent)
      else
        -- confirmed release
        match s2.evState with
        | .pressed =>
            ({ s2 with evState := .waitingSecondTap,
                       firstReleaseTime := currentTime },
              BtnEvent.noEvent)
        | _ => (s2, BtnEvent.noEvent)
    else (s1, BtnEvent.noEvent)
  -- timeout and long press logic, checked every call
  match p.1.evState with
  | .pressed =>
      if currentTime - p.1.firstPressTime > cfg.longPressDuration ∧
          p.1.debouncedPressed then
        ({ p.1 with evState := .idle }, BtnEvent.longPress)
      else p
  | .waitingSecondTap =>
      if currentTime - p.1.firstPressTime > cfg.doubleTapWindow ∧
          currentTime - p.1.firstReleaseTime > cfg.doubleTapWindow then
        ({ p.1 with evState := .idle }, BtnEvent.tap)
      else p
  | .idle => p

/-- Repeated polling of `get_event` over a list of `(time, raw)` samples,
collecting the state after the last call and every emitted event. -/
def runGetEvent (cfg : BtnCfg) : ButtonState → List (Int × Bool) →
    ButtonState × List BtnEvent
  | s, [] => (s, [])
  | s, (t, raw) :: rest =>
      let p := getEvent cfg s t raw
      let r := runGetEvent cfg p.1 rest
      (r.1, p.2 :: r.2)

/-- Polling a held press past the threshold fires a long press (sanity). -/
example :
    (runGetEvent ⟨100, 30, 5⟩ initButtonState
      [(10, true), (20, true), (150, true), (200, true)]).2 =
      [.noEvent, .noEvent, .longPress, .noEvent] := by decide

/-- A short press followed by silence times out into a tap (sanity). -/
example :
    (runGetEvent ⟨100, 30, 5⟩ initButtonState
      [(10, true), (20, true), (40, false), (50, false), (100, false)]).2 =
      [.noEvent, .noEvent, .noEvent, .noEvent, .tap] := by decide

/-- Two quick presses produce a double tap (sanity). -/
example :
    (runGetEvent ⟨100, 30, 5⟩ initButtonState
      [(10, true), (20, true), (25, false), (31, false), (35, true),
        (42, true), (50, false), (60, false), (200, false)]).2 =
      [.noEvent, .noEvent, .noEvent, .noEvent, .noEvent, .doubleTap,
        .noEvent, .noEvent, .noEvent] := by decide

/-! ### Single-step characterizations of `get_event`

Each lemma describes one call of `get_event` in one phase of a gesture:
idle line, press being debounced, confirmed press, release being
debounced, double-tap wait window, and the firing steps. -/

/-- While the event machine is idle and the line stays pressed past the
debounce, `get_event` changes nothing and emits nothing. -/
theorem getEvent_idle_held (cfg : BtnCfg) (s : ButtonState) (t : Int)
    (hp : s.physicalPressed = true) (hd : s.debouncedPressed = true)
    (he : s.evState = .idle) :
    getEvent cfg s t true = (s, .noEvent) := by
  obtain ⟨ph, db, lc, es, fp, fr⟩ := s
  simp_all [getEvent]

/-- With the event machine idle, a released sample never emits an event,
keeps the machine idle, leaves the physical state released, and cannot
newly confirm a press. -/
theorem getEvent_idle_released (cfg : BtnCfg) (s : ButtonState) (t : Int)
    (he : s.evState = .idle) :
    (getEvent cfg s t false).2 = .noEvent ∧
    (getEvent cfg s t false).1.evState = .idle ∧
    (getEvent cfg s t false).1.physicalPressed = false ∧
    (s.debouncedPressed = false →
      (getEvent cfg s t false).1.debouncedPressed = false) := by
  obtain ⟨ph, db, lc, es, fp, fr⟩ := s
  subst he
  cases ph <;> cases db <;>
    simp [getEvent] <;> split_ifs <;> simp_all

/-- First raw sample of a press on a released idle line: the debounce
timer is reset, nothing else happens. -/
theorem getEvent_press_start (cfg : BtnCfg) (s : ButtonState) (t : Int)
    (hp : s.physicalPressed = false) (he : s.evState = .idle)
    (hdb : 0 ≤ cfg.debounceTime) :
    getEvent cfg s t true =
      ({ s with physicalPressed := true, lastStateChangeTime := t },
        .noEvent) := by
  obtain ⟨ph, db, lc, es, fp, fr⟩ := s
  subst hp he
  have h : ¬ cfg.debounceTime < 0 := by omega
  cases db <;> simp [getEvent, h]

/-- A pressed sample inside the debounce window of a fresh press: nothing
is confirmed, nothing changes. -/
theorem getEvent_preconfirm_held (cfg : BtnCfg) (s : ButtonState) (t : Int)
    (hp : s.physicalPressed = true) (hd : s.debouncedPressed = false)
    (he : s.evState = .idle)
    (ht : t - s.lastStateChangeTime ≤ cfg.debounceTime) :
    getEvent cfg s t true = (s, .noEvent) := by
  obtain ⟨ph, db, lc, es, fp, fr⟩ := s
  subst hp hd he
  have h : ¬ cfg.debounceTime < t - lc := by simp at ht ⊢; omega
  simp [getEvent, h]

/-- The sample that confirms a press from idle: the machine moves to
`PRESSED` and records `first_press_time`. -/
theorem getEvent_confirm_press (cfg : BtnCfg) (s : ButtonState) (t : Int)
    (hp : s.physicalPressed = true) (hd : s.debouncedPressed = false)
    (he : s.evState = .idle)
    (ht : t - s.lastStateChangeTime > cfg.debounceTime)
    (hlp : 0 ≤ cfg.longPressDuration) :
    getEvent cfg s t true =
      ({ s with debouncedPressed := true, evState := .pressed,
                firstPressTime := t }, .noEvent) := by
  obtain ⟨ph, db, lc, es, fp, fr⟩ := s
  subst hp hd he
  have h1 : cfg.debounceTime < t - lc := by simp at ht ⊢; omega
  have h2 : ¬ cfg.longPressDuration < 0 := by omega
  simp [getEvent, h1, h2]

/-- A pressed sample while `PRESSED`, before `long_press_duration`
elapses: nothing changes. -/
theorem getEvent_pressed_held_short (cfg : BtnCfg) (s : ButtonState)
    (t : Int)
    (hp : s.physicalPressed = true) (hd : s.debouncedPressed = true)
    (he : s.evState = .pressed)
    (ht : t - s.firstPressTime ≤ cfg.longPressDuration) :
    getEvent cfg s t true = (s, .noEvent) := by
  obtain ⟨ph, db, lc, es, fp, fr⟩ := s
  subst hp hd he
  have h : ¬ cfg.longPressDuration < t - fp := by simp at ht ⊢; omega
  simp [getEvent, h]

/-- A pressed sample while `PRESSED`, past `long_press_duration`: the
long press fires and the machine resets to idle. -/
theorem getEvent_pressed_fires (cfg : BtnCfg) (s : ButtonState) (t : Int)
    (hp : s.physicalPressed = true) (hd : s.debouncedPressed = true)
    (he : s.evState = .pressed)
    (ht : t - s.firstPressTime > cfg.longPressDuration) :
    getEvent cfg s t true = ({ s with evState := .idle }, .longPress) := by
  obtain ⟨ph, db, lc, es, fp, fr⟩ := s
  subst hp hd he
  have h : cfg.longPressDuration < t - fp := by simp at ht ⊢; omega
  simp [getEvent, h]

/-- First raw sample of the release of a short press: the debounce timer
is reset, the machine stays `PRESSED`, and no long press fires because
the press is still within `long_press_duration`. -/
theorem getEvent_release_start (cfg : BtnCfg) (s : ButtonState) (t : Int)
    (hp : s.physicalPressed = true) (hd : s.debouncedPressed = true)
    (he : s.evState = .pressed)
    (hdb : 0 ≤ cfg.debounceTime)
    (ht : t - s.firstPressTime ≤ cfg.longPressDuration) :
    getEvent cfg s t false =
      ({ s with physicalPressed := false, lastStateChangeTime := t },
        .noEvent) := by
  obtain ⟨ph, db, lc, es, fp, fr⟩ := s
  subst hp hd he
  have h1 : ¬ cfg.debounceTime < 0 := by omega
  have h2 : ¬ cfg.longPressDuration < t - fp := by simp at ht ⊢; omega
  simp [getEvent, h1, h2]

/-- A released sample inside the debounce window of the release, while
the press is still short: nothing changes. -/
theorem getEvent_release_debounce (cfg : BtnCfg) (s : ButtonState)
    (t : Int)
    (hp : s.physicalPressed = false) (hd : s.debouncedPressed = true)
    (he : s.evState = .pressed)
    (ht : t - s.lastStateChangeTime ≤ cfg.debounceTime)
    (ht2 : t - s.firstPressTime ≤ cfg.longPressDuration) :
    getEvent cfg s t false = (s, .noEvent) := by
  obtain ⟨ph, db, lc, es, fp, fr⟩ := s
  subst hp hd he
  have h1 : ¬ cfg.debounceTime < t - lc := by simp at ht ⊢; omega
  have h2 : ¬ cfg.longPressDuration < t - fp := by simp at ht2 ⊢; omega
  simp [getEvent, h1, h2]

/-- The sample that confirms the release of a short press: the machine
moves to `WAITING_FOR_SECOND_TAP` and records `first_release_time`; no
tap fires because the double-tap window starts now. -/
theorem getEvent_confirm_release (cfg : BtnCfg) (s : ButtonState)
    (t : Int)
    (hp : s.physicalPressed = false) (hd : s.debouncedPressed = true)
    (he : s.evState = .pressed)
    (ht : t - s.lastStateChangeTime > cfg.debounceTime)
    (hw : 0 ≤ cfg.doubleTapWindow) :
    getEvent cfg s t false =
      ({ s with debouncedPressed := false, evState := .waitingSecondTap,
                firstReleaseTime := t }, .noEvent) := by
  obtain ⟨ph, db, lc, es, fp, fr⟩ := s
  subst hp hd he
  have h1 : cfg.debounceTime < t - lc := by simp at ht ⊢; omega
  have h2 : ¬ cfg.doubleTapWindow < 0 := by omega
  simp [getEvent, h1, h2]

/-- A released sample while `WAITING_FOR_SECOND_TAP` for which the tap
timeout condition does not hold: nothing changes. -/
theorem getEvent_waiting_released_quiet (cfg : BtnCfg) (s : ButtonState)
    (t : Int)
    (hp : s.physicalPressed = false) (hd : s.debouncedPressed = false)
    (he : s.evState = .waitingSecondTap)
    (ht : ¬ (cfg.doubleTapWindow < t - s.firstPressTime ∧
             cfg.doubleTapWindow < t - s.firstReleaseTime)) :
    getEvent cfg s t false = (s, .noEvent) := by
  obtain ⟨ph, db, lc, es, fp, fr⟩ := s
  subst hp hd he
  simp only at ht
  simp [getEvent, ht]

/-- A released sample while `WAITING_FOR_SECOND_TAP` past the double-tap
window, measured both from the first press and from the first release:
the tap fires and the machine resets to idle. -/
theorem getEvent_waiting_fires_tap (cfg : BtnCfg) (s : ButtonState)
    (t : Int)
    (hp : s.physicalPressed = false) (hd : s.debouncedPressed = false)
    (he : s.evState = .waitingSecondTap)
    (ht1 : cfg.doubleTapWindow < t - s.firstPressTime)
    (ht2 : cfg.doubleTapWindow < t - s.firstReleaseTime) :
    getEvent cfg s t false = ({ s with evState := .idle }, .tap) := by
  obtain ⟨ph, db, lc, es, fp, fr⟩ := s
  subst hp hd he
  simp only at ht1 ht2
  simp [getEvent, ht1, ht2]

/-- First raw sample of a second press during the wait window: the
debounce timer is reset and nothing else happens. -/
theorem getEvent_second_press_start (cfg : BtnCfg) (s : ButtonState)
    (t : Int)
    (hp : s.physicalPressed = false) (hd : s.debouncedPressed = false)
    (he : s.evState = .waitingSecondTap)
    (hdb : 0 ≤ cfg.debounceTime)
    (ht : t - s.firstPressTime ≤ cfg.doubleTapWindow) :
    getEvent cfg s t true =
      ({ s with physicalPressed := true, lastStateChangeTime := t },
        .noEvent) := by
  obtain ⟨ph, db, lc, es, fp, fr⟩ := s
  subst hp hd he
  have h1 : ¬ cfg.debounceTime < 0 := by omega
  have h2 : ¬ cfg.doubleTapWindow < t - fp := by simp at ht ⊢; omega
  simp [getEvent, h1, h2]

/-- A pressed sample inside the debounce window of the second press,
still inside the double-tap window: nothing changes. -/
theorem getEvent_waiting_preconfirm_held (cfg : BtnCfg) (s : ButtonState)
    (t : Int)
    (hp : s.physicalPressed = true) (hd : s.debouncedPressed = false)
    (he : s.evState = .waitingSecondTap)
    (ht : t - s.lastStateChangeTime ≤ cfg.debounceTime)
    (ht2 : t - s.firstPressTime ≤ cfg.doubleTapWindow) :
    getEvent cfg s t true = (s, .noEvent) := by
  obtain ⟨ph, db, lc, es, fp, fr⟩ := s
  subst hp hd he
  have h1 : ¬ cfg.debounceTime < t - lc := by simp at ht ⊢; omega
  have h2 : ¬ cfg.doubleTapWindow < t - fp := by simp at ht2 ⊢; omega
  simp [getEvent, h1, h2]

/-- The sample that confirms a second press within `double_tap_window` of
the first press confirmation: the double tap fires and the machine resets
to idle. -/
theorem getEvent_confirm_doubleTap (cfg : BtnCfg) (s : ButtonState)
    (t : Int)
    (hp : s.physicalPressed = true) (hd : s.debouncedPressed = false)
    (he : s.evState = .waitingSecondTap)
    (ht : t - s.lastStateChangeTime > cfg.debounceTime)
    (hw : t - s.firstPressTime < cfg.doubleTapWindow) :
    getEvent cfg s t true =
      ({ s with debouncedPressed := true, evState := .idle },
        .doubleTap) := by
  obtain ⟨ph, db, lc, es, fp, fr⟩ := s
  subst hp hd he
  have h1 : cfg.debounceTime < t - lc := by simp at ht ⊢; omega
  simp only at hw
  simp [getEvent, h1, hw]

/-! ### Trace-level lemmas

Runs of `get_event` over whole phases of a gesture. -/

/-- Splitting a polling run at an append. -/
theorem runGetEvent_append (cfg : BtnCfg) (s : ButtonState)
    (l₁ l₂ : List (Int × Bool)) :
    runGetEvent cfg s (l₁ ++ l₂) =
      ((runGetEvent cfg (runGetEvent cfg s l₁).1 l₂).1,
        (runGetEvent cfg s l₁).2 ++
          (runGetEvent cfg (runGetEvent cfg s l₁).1 l₂).2) := by
  induction l₁ generalizing s with
  | nil => simp [runGetEvent]
  | cons h t ih =>
      obtain ⟨tt, raw⟩ := h
      simp [runGetEvent, ih]

/-- No event other than `noEvent` occurs in an all-quiet event list. -/
theorem count_map_noEvent (x : BtnEvent) (h : x ≠ .noEvent)
    (ts : List Int) :
    (ts.map fun _ => BtnEvent.noEvent).count x = 0 := by
  refine List.count_eq_zero.mpr ?_
  simp only [List.mem_map]
  rintro ⟨a, _, rfl⟩
  exact h rfl

/-- A pressed line with the machine idle stays put over any run of
pressed samples. -/
theorem runGetEvent_idle_held_run (cfg : BtnCfg) (s : ButtonState)
    (ts : List Int)
    (hp : s.physicalPressed = true) (hd : s.debouncedPressed = true)
    (he : s.evState = .idle) :
    runGetEvent cfg s (ts.map fun t => (t, true)) =
      (s, ts.map fun _ => .noEvent) := by
  induction ts with
  | nil => simp [runGetEvent]
  | cons t ts ih =>
      simp only [List.map_cons, runGetEvent]
      rw [getEvent_idle_held cfg s t hp hd he]
      simp [ih]

/-- With the machine idle, a run of released samples emits nothing and
keeps the machine idle; a released debounced state stays released, and
the physical state ends released whenever at least one sample occurs. -/
theorem runGetEvent_idle_released_run (cfg : BtnCfg) (s : ButtonState)
    (ts : List Int) (he : s.evState = .idle) :
    (runGetEvent cfg s (ts.map fun t => (t, false))).2 =
      (ts.map fun _ => .noEvent) ∧
    (runGetEvent cfg s (ts.map fun t => (t, false))).1.evState = .idle ∧
    (s.debouncedPressed = false →
      (runGetEvent cfg s (ts.map fun t => (t, false))).1.debouncedPressed
        = false) ∧
    (s.physicalPressed = false ∨ ts ≠ [] →
      (runGetEvent cfg s (ts.map fun t => (t, false))).1.physicalPressed
        = false) := by
  induction ts generalizing s with
  | nil =>
      exact ⟨rfl, he, fun h => h, fun h => h.resolve_right fun hne => hne rfl⟩
  | cons t ts ih =>
      obtain ⟨h2, he', hph, hdb⟩ := getEvent_idle_released cfg s t he
      obtain ⟨ih2, ihe, ihd, ihp⟩ := ih (getEvent cfg s t false).1 he'
      simp only [List.map_cons, runGetEvent]
      exact ⟨by simp [h2, ih2], ihe, fun h => ihd (hdb h),
        fun _ => ihp (Or.inl hph)⟩

/-- A fresh press stays unconfirmed over samples inside the debounce
window. -/
theorem runGetEvent_preconfirm_run (cfg : BtnCfg) (s : ButtonState)
    (ts : List Int)
    (hp : s.physicalPressed = true) (hd : s.debouncedPressed = false)
    (he : s.evState = .idle)
    (hts : ∀ t ∈ ts, t - s.lastStateChangeTime ≤ cfg.debounceTime) :
    runGetEvent cfg s (ts.map fun t => (t, true)) =
      (s, ts.map fun _ => .noEvent) := by
  induction ts with
  | nil => simp [runGetEvent]
  | cons t ts ih =>
      simp only [List.map_cons, runGetEvent]
      rw [getEvent_preconfirm_held cfg s t hp hd he (hts t (by simp))]
      simp [ih fun u hu => hts u (List.mem_cons_of_mem _ hu)]

/-- A confirmed press stays `PRESSED` over samples short of
`long_press_duration`. -/
theorem runGetEvent_pressed_short_run (cfg : BtnCfg) (s : ButtonState)
    (ts : List Int)
    (hp : s.physicalPressed = true) (hd : s.debouncedPressed = true)
    (he : s.evState = .pressed)
    (hts : ∀ t ∈ ts, t - s.firstPressTime ≤ cfg.longPressDuration) :
    runGetEvent cfg s (ts.map fun t => (t, true)) =
      (s, ts.map fun _ => .noEvent) := by
  induction ts with
  | nil => simp [runGetEvent]
  | cons t ts ih =>
      simp only [List.map_cons, runGetEvent]
      rw [getEvent_pressed_held_short cfg s t hp hd he (hts t (by simp))]
      simp [ih fun u hu => hts u (List.mem_cons_of_mem _ hu)]

/-- A release being debounced keeps the machine `PRESSED` and quiet while
samples stay inside the debounce window and the press is still short. -/
theorem runGetEvent_release_debounce_run (cfg : BtnCfg) (s : ButtonState)
    (ts : List Int)
    (hp : s.physicalPressed = false) (hd : s.debouncedPressed = true)
    (he : s.evState = .pressed)
    (hts : ∀ t ∈ ts, t - s.lastStateChangeTime ≤ cfg.debounceTime ∧
        t - s.firstPressTime ≤ cfg.longPressDuration) :
    runGetEvent cfg s (ts.map fun t => (t, false)) =
      (s, ts.map fun _ => .noEvent) := by
  induction ts with
  | nil => simp [runGetEvent]
  | cons t ts ih =>
      simp only [List.map_cons, runGetEvent]
      rw [getEvent_release_debounce cfg s t hp hd he
        (hts t (by simp)).1 (hts t (by simp)).2]
      simp [ih fun u hu => hts u (List.mem_cons_of_mem _ hu)]

/-- The wait for a second tap is quiet over released samples for which
the tap timeout condition fails. -/
theorem runGetEvent_waiting_quiet_run (cfg : BtnCfg) (s : ButtonState)
    (ts : List Int)
    (hp : s.physicalPressed = false) (hd : s.debouncedPressed = false)
    (he : s.evState = .waitingSecondTap)
    (hts : ∀ t ∈ ts, ¬ (cfg.doubleTapWindow < t - s.firstPressTime ∧
        cfg.doubleTapWindow < t - s.firstReleaseTime)) :
    runGetEvent cfg s (ts.map fun t => (t, false)) =
      (s, ts.map fun _ => .noEvent) := by
  induction ts with
  | nil => simp [runGetEvent]
  | cons t ts ih =>
      simp only [List.map_cons, runGetEvent]
      rw [getEvent_waiting_released_quiet cfg s t hp hd he (hts t (by simp))]
      simp [ih fun u hu => hts u (List.mem_cons_of_mem _ hu)]

/-- A second press being debounced inside the double-tap window keeps the
machine waiting and quiet. -/
theorem runGetEvent_waiting_held_run (cfg : BtnCfg) (s : ButtonState)
    (ts : List Int)
    (hp : s.physicalPressed = true) (hd : s.debouncedPressed = false)
    (he : s.evState = .waitingSecondTap)
    (hts : ∀ t ∈ ts, t - s.lastStateChangeTime ≤ cfg.debounceTime ∧
        t - s.firstPressTime ≤ cfg.doubleTapWindow) :
    runGetEvent cfg s (ts.map fun t => (t, true)) =
      (s, ts.map fun _ => .noEvent) := by
  induction ts with
  | nil => simp [runGetEvent]
  | cons t ts ih =>
      simp only [List.map_cons, runGetEvent]
      rw [getEvent_waiting_preconfirm_held cfg s t hp hd he
        (hts t (by simp)).1 (hts t (by simp)).2]
      simp [ih fun u hu => hts u (List.mem_cons_of_mem _ hu)]

/-- Core of the long-press property: once a press is confirmed and held,
a run of pressed samples containing at least one sample past
`long_press_duration` emits exactly one `LongPress` and nothing else. -/
theorem runGetEvent_pressed_fires_run (cfg : BtnCfg) (s : ButtonState)
    (ts : List Int)
    (hp : s.physicalPressed = true) (hd : s.debouncedPressed = true)
    (he : s.evState = .pressed)
    (hfire : ∃ t ∈ ts, cfg.longPressDuration < t - s.firstPressTime) :
    ((runGetEvent cfg s (ts.map fun t => (t, true))).2.count .longPress
        = 1) ∧
    ((runGetEvent cfg s (ts.map fun t => (t, true))).2.count .tap = 0) ∧
    ((runGetEvent cfg s (ts.map fun t => (t, true))).2.count .doubleTap
        = 0) := by
  induction ts with
  | nil => simp at hfire
  | cons t ts ih =>
      by_cases h : cfg.longPressDuration < t - s.firstPressTime
      · simp only [List.map_cons, runGetEvent]
        rw [getEvent_pressed_fires cfg s t hp hd he (by simpa using h)]
        dsimp only
        rw [runGetEvent_idle_held_run cfg ({ s with evState := .idle }) ts
          (by simpa using hp) (by simpa using hd) rfl]
        simp [List.count_cons, count_map_noEvent, List.count_replicate]
      · obtain ⟨u, hu, hufire⟩ := hfire
        have hu' : u ∈ ts := by
          rcases List.mem_cons.mp hu with rfl | h2
          · exact absurd hufire h
          · exact h2
        simp only [List.map_cons, runGetEvent]
        rw [getEvent_pressed_held_short cfg s t hp hd he (by omega)]
        obtain ⟨i1, i2, i3⟩ := ih ⟨u, hu', hufire⟩
        simp [List.count_cons, i1, i2, i3]

/-- Core of the tap property: once the machine waits for a second tap
over a released line, a run of released samples containing a sample past
the double-tap window (from both reference points) emits exactly one
`Tap` and nothing else. -/
theorem runGetEvent_waiting_fires_run (cfg : BtnCfg) (s : ButtonState)
    (ts : List Int)
    (hp : s.physicalPressed = false) (hd : s.debouncedPressed = false)
    (he : s.evState = .waitingSecondTap)
    (hfire : ∃ t ∈ ts, cfg.doubleTapWindow < t - s.firstPressTime ∧
        cfg.doubleTapWindow < t - s.firstReleaseTime) :
    ((runGetEvent cfg s (ts.map fun t => (t, false))).2.count .tap = 1) ∧
    ((runGetEvent cfg s (ts.map fun t => (t, false))).2.count .doubleTap
        = 0) ∧
    ((runGetEvent cfg s (ts.map fun t => (t, false))).2.count .longPress
        = 0) := by
  induction ts with
  | nil => simp at hfire
  | cons t ts ih =>
      by_cases h : cfg.doubleTapWindow < t - s.firstPressTime ∧
          cfg.doubleTapWindow < t - s.firstReleaseTime
      · simp only [List.map_cons, runGetEvent]
        rw [getEvent_waiting_fires_tap cfg s t hp hd he h.1 h.2]
        dsimp only
        obtain ⟨r2, _, _, _⟩ :=
          runGetEvent_idle_released_run cfg
            ({ s with evState := .idle }) ts rfl
        rw [r2]
        simp [List.count_cons, count_map_noEvent, List.count_replicate]
      · obtain ⟨u, hu, hufire⟩ := hfire
        have hu' : u ∈ ts := by
          rcases List.mem_cons.mp hu with rfl | h2
          · exact absurd hufire h
          · exact h2
        simp only [List.map_cons, runGetEvent]
        rw [getEvent_waiting_released_quiet cfg s t hp hd he h]
        obtain ⟨i1, i2, i3⟩ := ih ⟨u, hu', hufire⟩
        simp [List.count_cons, i1, i2, i3]

/-! ### Claim theorems about the gesture recognizer -/

/-- C5: for every polling sequence in which the debounced line is held
pressed continuously and at least `long_press_duration` passes after the
press is confirmed, `get_event` emits exactly one `LongPress` — fired
before any release is observed (the whole run is pressed) — and never a
second one while the press stays held; no other event is emitted.  The
poll instants are an arbitrary strictly increasing list: `t0` is the
first pressed sample, `ts1` the polls inside the debounce window, `tc`
the poll confirming the press, and some later poll `tl` falls beyond
`long_press_duration`; `ts2` and `ts3` are arbitrary. -/
theorem claim_C5_longPress_exactly_once (cfg : BtnCfg)
    (hdb : 0 ≤ cfg.debounceTime) (hlp : 0 ≤ cfg.longPressDuration)
    (t0 tc tl : Int) (ts1 ts2 ts3 : List Int)
    (hmono : (t0 :: ts1 ++ tc :: ts2 ++ tl :: ts3).Pairwise (· < ·))
    (hpre : ∀ t ∈ ts1, t - t0 ≤ cfg.debounceTime)
    (hconf : cfg.debounceTime < tc - t0)
    (hheld : cfg.longPressDuration < tl - tc) :
    ((runGetEvent cfg initButtonState
        ((t0 :: ts1 ++ tc :: ts2 ++ tl :: ts3).map fun t =>
          (t, true))).2.count .longPress = 1) ∧
    ((runGetEvent cfg initButtonState
        ((t0 :: ts1 ++ tc :: ts2 ++ tl :: ts3).map fun t =>
          (t, true))).2.count .tap = 0) ∧
    ((runGetEvent cfg initButtonState
        ((t0 :: ts1 ++ tc :: ts2 ++ tl :: ts3).map fun t =>
          (t, true))).2.count .doubleTap = 0) := by
  have h1 : getEvent cfg initButtonState t0 true =
      (⟨true, false, t0, .idle, 0, 0⟩, .noEvent) := by
    rw [getEvent_press_start cfg initButtonState t0 rfl rfl hdb]
    rfl
  have h2 : getEvent cfg ⟨true, false, t0, .idle, 0, 0⟩ tc true =
      (⟨true, true, t0, .pressed, tc, 0⟩, .noEvent) := by
    rw [getEvent_confirm_press cfg ⟨true, false, t0, .idle, 0, 0⟩ tc
      rfl rfl rfl hconf hlp]
  have e0 : (t0 :: ts1 ++ tc :: ts2 ++ tl :: ts3).map
        (fun t => ((t, true) : Int × Bool)) =
      ((t0, true) :: ts1.map fun t => (t, true)) ++
        ((tc, true) :: (ts2 ++ tl :: ts3).map fun t => (t, true)) := by
    simp
  have e1 : runGetEvent cfg initButtonState
      ((t0, true) :: ts1.map fun t => (t, true)) =
      (⟨true, false, t0, .idle, 0, 0⟩,
        .noEvent :: ts1.map fun _ => .noEvent) := by
    simp only [runGetEvent]
    rw [h1]
    dsimp only
    rw [runGetEvent_preconfirm_run cfg ⟨true, false, t0, .idle, 0, 0⟩ ts1
      rfl rfl rfl hpre]
  have e2 : runGetEvent cfg ⟨true, false, t0, .idle, 0, 0⟩
      ((tc, true) :: (ts2 ++ tl :: ts3).map fun t => (t, true)) =
      ((runGetEvent cfg ⟨true, true, t0, .pressed, tc, 0⟩
          ((ts2 ++ tl :: ts3).map fun t => (t, true))).1,
        .noEvent :: (runGetEvent cfg ⟨true, true, t0, .pressed, tc, 0⟩
          ((ts2 ++ tl :: ts3).map fun t => (t, true))).2) := by
    simp only [runGetEvent]
    rw [h2]
  obtain ⟨c1, c2, c3⟩ := runGetEvent_pressed_fires_run cfg
    ⟨true, true, t0, .pressed, tc, 0⟩ (ts2 ++ tl :: ts3) rfl rfl rfl
    ⟨tl, by simp, hheld⟩
  have key : (runGetEvent cfg initButtonState
      ((t0 :: ts1 ++ tc :: ts2 ++ tl :: ts3).map fun t => (t, true))).2 =
      .noEvent :: ((ts1.map fun _ => .noEvent) ++ .noEvent ::
        (runGetEvent cfg ⟨true, true, t0, .pressed, tc, 0⟩
          ((ts2 ++ tl :: ts3).map fun t => (t, true))).2) := by
    rw [e0, runGetEvent_append, e1]
    dsimp only
    rw [e2]
    simp
  simp only [List.map_append, List.map_cons] at c1 c2 c3
  rw [key]
  simp [List.count_cons, List.count_append, List.count_replicate,
    c1, c2, c3]

/-- C4: for every polling sequence in which one press is debounced and
confirmed, stays shorter than `long_press_duration` (also through the
debouncing of its release), is released, and no second press occurs while
the double-tap window runs out, `get_event` emits exactly one `Tap` and
no `DoubleTap` or `LongPress`.  `t0` starts the press, `tc` confirms it,
`r0` starts the release, `tr` confirms it, and the later poll `tt` lies
beyond the double-tap window measured from both the press confirmation
and the release confirmation. -/
theorem claim_C4_single_tap (cfg : BtnCfg)
    (hdb : 0 ≤ cfg.debounceTime) (hlp : 0 ≤ cfg.longPressDuration)
    (hw : 0 ≤ cfg.doubleTapWindow)
    (t0 tc r0 tr tt : Int) (ts1 ts2 ts3 ts4a ts4b : List Int)
    (hmono : ((t0 :: ts1 ++ tc :: ts2) ++ r0 :: ts3 ++ tr :: ts4a ++
      tt :: ts4b).Pairwise (· < ·))
    (hpre : ∀ t ∈ ts1, t - t0 ≤ cfg.debounceTime)
    (hconf : cfg.debounceTime < tc - t0)
    (hshort : ∀ t ∈ ts2, t - tc ≤ cfg.longPressDuration)
    (hr0 : r0 - tc ≤ cfg.longPressDuration)
    (hrel : ∀ t ∈ ts3, t - r0 ≤ cfg.debounceTime ∧
      t - tc ≤ cfg.longPressDuration)
    (hrconf : cfg.debounceTime < tr - r0)
    (htt1 : cfg.doubleTapWindow < tt - tc)
    (htt2 : cfg.doubleTapWindow < tt - tr) :
    ((runGetEvent cfg initButtonState
        (((t0 :: ts1 ++ tc :: ts2).map fun t => (t, true)) ++
          ((r0 :: ts3 ++ tr :: ts4a ++ tt :: ts4b).map fun t =>
            (t, false)))).2.count .tap = 1) ∧
    ((runGetEvent cfg initButtonState
        (((t0 :: ts1 ++ tc :: ts2).map fun t => (t, true)) ++
          ((r0 :: ts3 ++ tr :: ts4a ++ tt :: ts4b).map fun t =>
            (t, false)))).2.count .doubleTap = 0) ∧
    ((runGetEvent cfg initButtonState
        (((t0 :: ts1 ++ tc :: ts2).map fun t => (t, true)) ++
          ((r0 :: ts3 ++ tr :: ts4a ++ tt :: ts4b).map fun t =>
            (t, false)))).2.count .longPress = 0) := by
  have h1 : getEvent cfg initButtonState t0 true =
      (⟨true, false, t0, .idle, 0, 0⟩, .noEvent) := by
    rw [getEvent_press_start cfg initButtonState t0 rfl rfl hdb]
    rfl
  have h2 : getEvent cfg ⟨true, false, t0, .idle, 0, 0⟩ tc true =
      (⟨true, true, t0, .pressed, tc, 0⟩, .noEvent) := by
    rw [getEvent_confirm_press cfg ⟨true, false, t0, .idle, 0, 0⟩ tc
      rfl rfl rfl hconf hlp]
  have h3 : getEvent cfg ⟨true, true, t0, .pressed, tc, 0⟩ r0 false =
      (⟨false, true, r0, .pressed, tc, 0⟩, .noEvent) := by
    rw [getEvent_release_start cfg ⟨true, true, t0, .pressed, tc, 0⟩ r0
      rfl rfl rfl hdb hr0]
  have h4 : getEvent cfg ⟨false, true, r0, .pressed, tc, 0⟩ tr false =
      (⟨false, false, r0, .waitingSecondTap, tc, tr⟩, .noEvent) := by
    rw [getEvent_confirm_release cfg ⟨false, true, r0, .pressed, tc, 0⟩ tr
      rfl rfl rfl hrconf hw]
  have e0 : (((t0 :: ts1 ++ tc :: ts2).map fun t =>
        ((t, true) : Int × Bool)) ++
      ((r0 :: ts3 ++ tr :: ts4a ++ tt :: ts4b).map fun t => (t, false))) =
      ((t0, true) :: ts1.map fun t => (t, true)) ++
        (((tc, true) :: ts2.map fun t => (t, true)) ++
          (((r0, false) :: ts3.map fun t => (t, false)) ++
            ((tr, false) :: (ts4a ++ tt :: ts4b).map fun t =>
              (t, false)))) := by
    simp
  have e1 : runGetEvent cfg initButtonState
      ((t0, true) :: ts1.map fun t => (t, true)) =
      (⟨true, false, t0, .idle, 0, 0⟩,
        .noEvent :: ts1.map fun _ => .noEvent) := by
    simp only [runGetEvent]
    rw [h1]
    dsimp only
    rw [runGetEvent_preconfirm_run cfg ⟨true, false, t0, .idle, 0, 0⟩ ts1
      rfl rfl rfl hpre]
  have e2 : runGetEvent cfg ⟨true, false, t0, .idle, 0, 0⟩
      ((tc, true) :: ts2.map fun t => (t, true)) =
      (⟨true, true, t0, .pressed, tc, 0⟩,
        .noEvent :: ts2.map fun _ => .noEvent) := by
    simp only [runGetEvent]
    rw [h2]
    dsimp only
    rw [runGetEvent_pressed_short_run cfg ⟨true, true, t0, .pressed, tc, 0⟩
      ts2 rfl rfl rfl hshort]
  have e3 : runGetEvent cfg ⟨true, true, t0, .pressed, tc, 0⟩
      ((r0, false) :: ts3.map fun t => (t, false)) =
      (⟨false, true, r0, .pressed, tc, 0⟩,
        .noEvent :: ts3.map fun _ => .noEvent) := by
    simp only [runGetEvent]
    rw [h3]
    dsimp only
    rw [runGetEvent_release_debounce_run cfg
      ⟨false, true, r0, .pressed, tc, 0⟩ ts3 rfl rfl rfl hrel]
  have e4 : runGetEvent cfg ⟨false, true, r0, .pressed, tc, 0⟩
      ((tr, false) :: (ts4a ++ tt :: ts4b).map fun t => (t, false)) =
      ((runGetEvent cfg ⟨false, false, r0, .waitingSecondTap, tc, tr⟩
          ((ts4a ++ tt :: ts4b).map fun t => (t, false))).1,
        .noEvent :: (runGetEvent cfg
          ⟨false, false, r0, .waitingSecondTap, tc, tr⟩
          ((ts4a ++ tt :: ts4b).map fun t => (t, false))).2) := by
    simp only [runGetEvent]
    rw [h4]
  obtain ⟨c1, c2, c3⟩ := runGetEvent_waiting_fires_run cfg
    ⟨false, false, r0, .waitingSecondTap, tc, tr⟩ (ts4a ++ tt :: ts4b)
    rfl rfl rfl ⟨tt, by simp, htt1, htt2⟩
  have key : (runGetEvent cfg initButtonState
      (((t0 :: ts1 ++ tc :: ts2).map fun t => (t, true)) ++
        ((r0 :: ts3 ++ tr :: ts4a ++ tt :: ts4b).map fun t =>
          (t, false)))).2 =
      .noEvent :: ((ts1.map fun _ => .noEvent) ++ .noEvent ::
        ((ts2.map fun _ => .noEvent) ++ .noEvent ::
          ((ts3.map fun _ => .noEvent) ++ .noEvent ::
            (runGetEvent cfg ⟨false, false, r0, .waitingSecondTap, tc, tr⟩
              ((ts4a ++ tt :: ts4b).map fun t => (t, false))).2))) := by
    rw [e0, runGetEvent_append, e1]
    dsimp only
    rw [runGetEvent_append, e2]
    dsimp only
    rw [runGetEvent_append, e3]
    dsimp only
    rw [e4]
    simp
  simp only [List.map_append, List.map_cons] at c1 c2 c3
  rw [key]
  simp [List.count_cons, List.count_append, List.count_replicate,
    c1, c2, c3]

/-- C3 (counterexample): the claim measures the double-tap window from
the gap between the presses, but `get_event` (hal.py line 368) measures
it from the *first press* time.  With `long_press_duration = 100`,
`double_tap_window = 5`, `debounce_time = 1`: the first press spans raw
instants 10 to 14 (held 4 < 100), the second press starts at raw instant
17 — a gap of 17 - 14 = 3 < 5 — and is held 21 - 17 = 4 < 100; both
presses are debounced (each level is stable longer than 1).  The claim
demands exactly one `DoubleTap` and zero `Tap`; the run emits zero
`DoubleTap` and one `Tap`, because the second press is confirmed at
instant 19 and 19 - 12 = 7 ≥ 5 exceeds the window measured from the
first press confirmation. -/
theorem claim_C3_counterexample :
    ((17 : Int) - 14 < 5) ∧ ((14 : Int) - 10 < 100) ∧
    ((21 : Int) - 17 < 100) ∧
    ((runGetEvent ⟨100, 5, 1⟩ initButtonState
      [(10, true), (12, true), (14, false), (16, false), (17, true),
        (19, true), (21, false), (23, false), (30, false)]).2.count
        .doubleTap = 0) ∧
    ((runGetEvent ⟨100, 5, 1⟩ initButtonState
      [(10, true), (12, true), (14, false), (16, false), (17, true),
        (19, true), (21, false), (23, false), (30, false)]).2.count
        .tap = 1) := by decide

/-- C3 (amended): two debounced presses, each held shorter than
`long_press_duration`, where the *second press is confirmed within
`double_tap_window` of the first press confirmation* (the implementation
measures the window from the first press, hal.py line 368), yield exactly
one `DoubleTap` and zero `Tap` events.  `t0/tc` start and confirm the
first press, `r0/tr` its release, `p2/tc2` start and confirm the second
press with `tc2 - tc < double_tap_window`, `r2` releases it; the `tsN`
are arbitrary intermediate polls of the same phases. -/
theorem claim_C3_amended_doubleTap (cfg : BtnCfg)
    (hdb : 0 ≤ cfg.debounceTime) (hlp : 0 ≤ cfg.longPressDuration)
    (hw : 0 ≤ cfg.doubleTapWindow)
    (t0 tc r0 tr p2 tc2 r2 : Int)
    (ts1 ts2 ts3 ts4 ts5 ts6 ts7 : List Int)
    (hmono : (((t0 :: ts1 ++ tc :: ts2) ++ (r0 :: ts3 ++ tr :: ts4) ++
      (p2 :: ts5 ++ tc2 :: ts6) ++ (r2 :: ts7))).Pairwise (· < ·))
    (hpre : ∀ t ∈ ts1, t - t0 ≤ cfg.debounceTime)
    (hconf : cfg.debounceTime < tc - t0)
    (hshort : ∀ t ∈ ts2, t - tc ≤ cfg.longPressDuration)
    (hr0 : r0 - tc ≤ cfg.longPressDuration)
    (hrel : ∀ t ∈ ts3, t - r0 ≤ cfg.debounceTime ∧
      t - tc ≤ cfg.longPressDuration)
    (hrconf : cfg.debounceTime < tr - r0)
    (hq4 : ∀ t ∈ ts4, t - tc ≤ cfg.doubleTapWindow)
    (hp2 : p2 - tc ≤ cfg.doubleTapWindow)
    (h5 : ∀ t ∈ ts5, t - p2 ≤ cfg.debounceTime ∧
      t - tc ≤ cfg.doubleTapWindow)
    (hconf2 : cfg.debounceTime < tc2 - p2)
    (hdt : tc2 - tc < cfg.doubleTapWindow) :
    ((runGetEvent cfg initButtonState
        (((t0 :: ts1 ++ tc :: ts2).map fun t => (t, true)) ++
          ((r0 :: ts3 ++ tr :: ts4).map fun t => (t, false)) ++
          ((p2 :: ts5 ++ tc2 :: ts6).map fun t => (t, true)) ++
          ((r2 :: ts7).map fun t => (t, false)))).2.count .doubleTap = 1) ∧
    ((runGetEvent cfg initButtonState
        (((t0 :: ts1 ++ tc :: ts2).map fun t => (t, true)) ++
          ((r0 :: ts3 ++ tr :: ts4).map fun t => (t, false)) ++
          ((p2 :: ts5 ++ tc2 :: ts6).map fun t => (t, true)) ++
          ((r2 :: ts7).map fun t => (t, false)))).2.count .tap = 0) ∧
    ((runGetEvent cfg initButtonState
        (((t0 :: ts1 ++ tc :: ts2).map fun t => (t, true)) ++
          ((r0 :: ts3 ++ tr :: ts4).map fun t => (t, false)) ++
          ((p2 :: ts5 ++ tc2 :: ts6).map fun t => (t, true)) ++
          ((r2 :: ts7).map fun t => (t, false)))).2.count
          .longPress = 0) := by
  have h1 : getEvent cfg initButtonState t0 true =
      (⟨true, false, t0, .idle, 0, 0⟩, .noEvent) := by
    rw [getEvent_press_start cfg initButtonState t0 rfl rfl hdb]
    rfl
  have h2 : getEvent cfg ⟨true, false, t0, .idle, 0, 0⟩ tc true =
      (⟨true, true, t0, .pressed, tc, 0⟩, .noEvent) := by
    rw [getEvent_confirm_press cfg ⟨true, false, t0, .idle, 0, 0⟩ tc
      rfl rfl rfl hconf hlp]
  have h3 : getEvent cfg ⟨true, true, t0, .pressed, tc, 0⟩ r0 false =
      (⟨false, true, r0, .pressed, tc, 0⟩, .noEvent) := by
    rw [getEvent_release_start cfg ⟨true, true, t0, .pressed, tc, 0⟩ r0
      rfl rfl rfl hdb hr0]
  have h4 : getEvent cfg ⟨false, true, r0, .pressed, tc, 0⟩ tr false =
      (⟨false, false, r0, .waitingSecondTap, tc, tr⟩, .noEvent) := by
    rw [getEvent_confirm_release cfg ⟨false, true, r0, .pressed, tc, 0⟩ tr
      rfl rfl rfl hrconf hw]
  have h5' : getEvent cfg ⟨false, false, r0, .waitingSecondTap, tc, tr⟩
      p2 true =
      (⟨true, false, p2, .waitingSecondTap, tc, tr⟩, .noEvent) := by
    rw [getEvent_second_press_start cfg
      ⟨false, false, r0, .waitingSecondTap, tc, tr⟩ p2 rfl rfl rfl hdb hp2]
  have h6 : getEvent cfg ⟨true, false, p2, .waitingSecondTap, tc, tr⟩
      tc2 true =
      (⟨true, true, p2, .idle, tc, tr⟩, .doubleTap) := by
    rw [getEvent_confirm_doubleTap cfg
      ⟨true, false, p2, .waitingSecondTap, tc, tr⟩ tc2 rfl rfl rfl
      hconf2 hdt]
  have e0 : ((((t0 :: ts1 ++ tc :: ts2).map fun t =>
        ((t, true) : Int × Bool)) ++
      ((r0 :: ts3 ++ tr :: ts4).map fun t => (t, false)) ++
      ((p2 :: ts5 ++ tc2 :: ts6).map fun t => (t, true)) ++
      ((r2 :: ts7).map fun t => (t, false)))) =
      ((t0, true) :: ts1.map fun t => (t, true)) ++
        (((tc, true) :: ts2.map fun t => (t, true)) ++
          (((r0, false) :: ts3.map fun t => (t, false)) ++
            (((tr, false) :: ts4.map fun t => (t, false)) ++
              (((p2, true) :: ts5.map fun t => (t, true)) ++
                (((tc2, true) :: ts6.map fun t => (t, true)) ++
                  ((r2 :: ts7).map fun t => (t, false))))))) := by
    simp
  have e1 : runGetEvent cfg initButtonState
      ((t0, true) :: ts1.map fun t => (t, true)) =
      (⟨true, false, t0, .idle, 0, 0⟩,
        .noEvent :: ts1.map fun _ => .noEvent) := by
    simp only [runGetEvent]
    rw [h1]
    dsimp only
    rw [runGetEvent_preconfirm_run cfg ⟨true, false, t0, .idle, 0, 0⟩ ts1
      rfl rfl rfl hpre]
  have e2 : runGetEvent cfg ⟨true, false, t0, .idle, 0, 0⟩
      ((tc, true) :: ts2.map fun t => (t, true)) =
      (⟨true, true, t0, .pressed, tc, 0⟩,
        .noEvent :: ts2.map fun _ => .noEvent) := by
    simp only [runGetEvent]
    rw [h2]
    dsimp only
    rw [runGetEvent_pressed_short_run cfg ⟨true, true, t0, .pressed, tc, 0⟩
      ts2 rfl rfl rfl hshort]
  have e3 : runGetEvent cfg ⟨true, true, t0, .pressed, tc, 0⟩
      ((r0, false) :: ts3.map fun t => (t, false)) =
      (⟨false, true, r0, .pressed, tc, 0⟩,
        .noEvent :: ts3.map fun _ => .noEvent) := by
    simp only [runGetEvent]
    rw [h3]
    dsimp only
    rw [runGetEvent_release_debounce_run cfg
      ⟨false, true, r0, .pressed, tc, 0⟩ ts3 rfl rfl rfl hrel]
  have e4 : runGetEvent cfg ⟨false, true, r0, .pressed, tc, 0⟩
      ((tr, false) :: ts4.map fun t => (t, false)) =
      (⟨false, false, r0, .waitingSecondTap, tc, tr⟩,
        .noEvent :: ts4.map fun _ => .noEvent) := by
    simp only [runGetEvent]
    rw [h4]
    dsimp only
    rw [runGetEvent_waiting_quiet_run cfg
      ⟨false, false, r0, .waitingSecondTap, tc, tr⟩ ts4 rfl rfl rfl
      (fun t ht hc => absurd hc.1 (by have := hq4 t ht; simp; omega))]
  have e5 : runGetEvent cfg ⟨false, false, r0, .waitingSecondTap, tc, tr⟩
      ((p2, true) :: ts5.map fun t => (t, true)) =
      (⟨true, false, p2, .waitingSecondTap, tc, tr⟩,
        .noEvent :: ts5.map fun _ => .noEvent) := by
    simp only [runGetEvent]
    rw [h5']
    dsimp only
    rw [runGetEvent_waiting_held_run cfg
      ⟨true, false, p2, .waitingSecondTap, tc, tr⟩ ts5 rfl rfl rfl h5]
  have e6 : runGetEvent cfg ⟨true, false, p2, .waitingSecondTap, tc, tr⟩
      ((tc2, true) :: ts6.map fun t => (t, true)) =
      (⟨true, true, p2, .idle, tc, tr⟩,
        .doubleTap :: ts6.map fun _ => .noEvent) := by
    simp only [runGetEvent]
    rw [h6]
    dsimp only
    rw [runGetEvent_idle_held_run cfg ⟨true, true, p2, .idle, tc, tr⟩ ts6
      rfl rfl rfl]
  obtain ⟨c1, _, _, _⟩ := runGetEvent_idle_released_run cfg
    ⟨true, true, p2, .idle, tc, tr⟩ (r2 :: ts7) rfl
  have key : (runGetEvent cfg initButtonState
      (((t0 :: ts1 ++ tc :: ts2).map fun t => (t, true)) ++
        ((r0 :: ts3 ++ tr :: ts4).map fun t => (t, false)) ++
        ((p2 :: ts5 ++ tc2 :: ts6).map fun t => (t, true)) ++
        ((r2 :: ts7).map fun t => (t, false)))).2 =
      .noEvent :: ((ts1.map fun _ => .noEvent) ++ .noEvent ::
        ((ts2.map fun _ => .noEvent) ++ .noEvent ::
          ((ts3.map fun _ => .noEvent) ++ .noEvent ::
            ((ts4.map fun _ => .noEvent) ++ .noEvent ::
              ((ts5.map fun _ => .noEvent) ++ .doubleTap ::
                ((ts6.map fun _ => .noEvent) ++
                  ((r2 :: ts7).map fun _ => .noEvent))))))) := by
    rw [e0, runGetEvent_append, e1]
    dsimp only
    rw [runGetEvent_append, e2]
    dsimp only
    rw [runGetEvent_append, e3]
    dsimp only
    rw [runGetEvent_append, e4]
    dsimp only
    rw [runGetEvent_append, e5]
    dsimp only
    rw [runGetEvent_append, e6]
    dsimp only
    rw [c1]
    simp
  rw [key]
  simp [List.count_cons, List.count_append, List.count_replicate]

/-! ### Debounce noise (C6) -/

/-- A noise trace: a sequence of segments, each a burst of raw pressed
samples `p0 :: ps` immediately reverted by raw released samples
`r0 :: rs`.  "Reverted in less than `debounce_time`" is the bound the
segments carry: every pressed sample of a burst lies within
`debounce_time` of the burst start. -/
def noiseTrace : List (Int × List Int × Int × List Int) →
    List (Int × Bool)
  | [] => []
  | (p0, ps, r0, rs) :: segs =>
      ((p0 :: ps).map fun t => (t, true)) ++
        (((r0 :: rs).map fun t => (t, false)) ++ noiseTrace segs)

/-- One noise segment, entered on a released, idle, debounced-released
state: no event fires, the debounced state stays released, the event
machine stays idle, and the line ends released again. -/
theorem noise_segment_run (cfg : BtnCfg) (hdb : 0 ≤ cfg.debounceTime)
    (s : ButtonState)
    (hp : s.physicalPressed = false) (hd : s.debouncedPressed = false)
    (he : s.evState = .idle)
    (p0 : Int) (ps : List Int) (r0 : Int) (rs : List Int)
    (hps : ∀ p ∈ ps, p - p0 ≤ cfg.debounceTime) :
    (∀ e ∈ (runGetEvent cfg s (((p0 :: ps).map fun t => (t, true)) ++
        ((r0 :: rs).map fun t => (t, false)))).2, e = .noEvent) ∧
    (runGetEvent cfg s (((p0 :: ps).map fun t => (t, true)) ++
        ((r0 :: rs).map fun t => (t, false)))).1.physicalPressed
      = false ∧
    (runGetEvent cfg s (((p0 :: ps).map fun t => (t, true)) ++
        ((r0 :: rs).map fun t => (t, false)))).1.debouncedPressed
      = false ∧
    (runGetEvent cfg s (((p0 :: ps).map fun t => (t, true)) ++
        ((r0 :: rs).map fun t => (t, false)))).1.evState = .idle := by
  have e1 : runGetEvent cfg s ((p0 :: ps).map fun t => (t, true)) =
      ({ s with physicalPressed := true, lastStateChangeTime := p0 },
        .noEvent :: ps.map fun _ => .noEvent) := by
    simp only [List.map_cons, runGetEvent]
    rw [getEvent_press_start cfg s p0 hp he hdb]
    dsimp only
    rw [runGetEvent_preconfirm_run cfg
      { s with physicalPressed := true, lastStateChangeTime := p0 } ps
      rfl hd he hps]
  obtain ⟨c1, c2, c3, c4⟩ := runGetEvent_idle_released_run cfg
    { s with physicalPressed := true, lastStateChangeTime := p0 }
    (r0 :: rs) he
  rw [runGetEvent_append, e1]
  dsimp only
  refine ⟨?_, c4 (Or.inr (by simp)), c3 hd, c2⟩
  intro e hmem
  rcases List.mem_append.mp hmem with hmem | hmem
  · rcases List.mem_cons.mp hmem with rfl | hmem
    · rfl
    · obtain ⟨a, -, ha⟩ := List.mem_map.mp hmem
      exact ha.symm
  · rw [c1] at hmem
    obtain ⟨a, -, ha⟩ := List.mem_map.mp hmem
    exact ha.symm

/-- Running a whole noise trace from a released, idle state: no event,
debounced state and event machine unchanged. -/
theorem noiseTrace_run (cfg : BtnCfg) (hdb : 0 ≤ cfg.debounceTime)
    (segs : List (Int × List Int × Int × List Int)) :
    ∀ s : ButtonState, s.physicalPressed = false →
    s.debouncedPressed = false → s.evState = .idle →
    (∀ seg ∈ segs, ∀ p ∈ seg.2.1, p - seg.1 ≤ cfg.debounceTime) →
    (∀ e ∈ (runGetEvent cfg s (noiseTrace segs)).2, e = .noEvent) ∧
    (runGetEvent cfg s (noiseTrace segs)).1.physicalPressed = false ∧
    (runGetEvent cfg s (noiseTrace segs)).1.debouncedPressed = false ∧
    (runGetEvent cfg s (noiseTrace segs)).1.evState = .idle := by
  induction segs with
  | nil =>
      intro s hp hd he _
      exact ⟨fun e hmem => by simp [runGetEvent] at hmem, hp, hd, he⟩
  | cons seg segs ih =>
      intro s hp hd he hnoise
      obtain ⟨p0, ps, r0, rs⟩ := seg
      have hps : ∀ p ∈ ps, p - p0 ≤ cfg.debounceTime :=
        hnoise (p0, ps, r0, rs) (by simp)
      obtain ⟨b1, b2, b3, b4⟩ :=
        noise_segment_run cfg hdb s hp hd he p0 ps r0 rs hps
      simp only [noiseTrace, ← List.append_assoc] at *
      rw [runGetEvent_append]
      obtain ⟨i1, i2, i3, i4⟩ := ih _ b2 b3 b4
        (fun g hg => hnoise g (List.mem_cons_of_mem _ hg))
      refine ⟨?_, i2, i3, i4⟩
      intro e hmem
      rcases List.mem_append.mp hmem with hmem | hmem
      · exact b1 e hmem
      · exact i1 e hmem

/-- C6: debounce noise never advances the gesture state machine.  For
every sequence of raw samples made of pressed bursts each reverted
within `debounce_time` (every pressed sample within `debounce_time` of
its burst start, then the line reads released again), repeated calls of
`get_event` from the boot state emit no event at all, the debounced
state never becomes pressed (it ends released after every burst), and
`_button_event_state` stays `IDLE`. -/
theorem claim_C6_debounce_noise (cfg : BtnCfg)
    (hdb : 0 ≤ cfg.debounceTime)
    (segs : List (Int × List Int × Int × List Int))
    (hmono : (noiseTrace segs).Pairwise (fun a b => a.1 < b.1))
    (hnoise : ∀ seg ∈ segs, ∀ p ∈ seg.2.1, p - seg.1 ≤ cfg.debounceTime) :
    (∀ e ∈ (runGetEvent cfg initButtonState (noiseTrace segs)).2,
      e = .noEvent) ∧
    (runGetEvent cfg initButtonState (noiseTrace segs)).1.debouncedPressed
      = false ∧
    (runGetEvent cfg initButtonState (noiseTrace segs)).1.evState
      = .idle := by
  obtain ⟨c1, _, c3, c4⟩ :=
    noiseTrace_run cfg hdb segs initButtonState rfl rfl rfl hnoise
  exact ⟨c1, c3, c4⟩

/-! ### Concrete witnesses for the gesture-recognizer claims -/

/-- Witness for C5 at `long_press_duration = 100`,
`double_tap_window = 30`, `debounce_time = 5` and the pressed polls
10, 12, 20, 150, 200. -/
theorem claim_C5_witness :
    ((runGetEvent ⟨100, 30, 5⟩ initButtonState
        (((10 : Int) :: [12] ++ 20 :: [] ++ 150 :: [200]).map fun t =>
          (t, true))).2.count .longPress = 1) ∧
    ((runGetEvent ⟨100, 30, 5⟩ initButtonState
        (((10 : Int) :: [12] ++ 20 :: [] ++ 150 :: [200]).map fun t =>
          (t, true))).2.count .tap = 0) ∧
    ((runGetEvent ⟨100, 30, 5⟩ initButtonState
        (((10 : Int) :: [12] ++ 20 :: [] ++ 150 :: [200]).map fun t =>
          (t, true))).2.count .doubleTap = 0) :=
  claim_C5_longPress_exactly_once ⟨100, 30, 5⟩ (by decide) (by decide)
    10 20 150 [12] [] [200] (by decide) (by decide) (by decide) (by decide)

/-- Witness for C4 at the same configuration: press at 10, confirmed at
16, released at 20, release confirmed at 26, window expired at 60. -/
theorem claim_C4_witness :
    ((runGetEvent ⟨100, 30, 5⟩ initButtonState
        ((((10 : Int) :: [] ++ 16 :: []).map fun t => (t, true)) ++
          (((20 : Int) :: [] ++ 26 :: [] ++ 60 :: []).map fun t =>
            (t, false)))).2.count .tap = 1) ∧
    ((runGetEvent ⟨100, 30, 5⟩ initButtonState
        ((((10 : Int) :: [] ++ 16 :: []).map fun t => (t, true)) ++
          (((20 : Int) :: [] ++ 26 :: [] ++ 60 :: []).map fun t =>
            (t, false)))).2.count .doubleTap = 0) ∧
    ((runGetEvent ⟨100, 30, 5⟩ initButtonState
        ((((10 : Int) :: [] ++ 16 :: []).map fun t => (t, true)) ++
          (((20 : Int) :: [] ++ 26 :: [] ++ 60 :: []).map fun t =>
            (t, false)))).2.count .longPress = 0) :=
  claim_C4_single_tap ⟨100, 30, 5⟩ (by decide) (by decide) (by decide)
    10 16 20 26 60 [] [] [] [] [] (by decide) (by decide) (by decide)
    (by decide) (by decide) (by decide) (by decide) (by decide) (by decide)

/-- Witness for the amended C3: first press at 10 confirmed at 16,
released at 18/24, second press at 26 confirmed at 32 (32 - 16 = 16 <
30), released at 34. -/
theorem claim_C3_witness :
    ((runGetEvent ⟨100, 30, 5⟩ initButtonState
        ((((10 : Int) :: [] ++ 16 :: []).map fun t => (t, true)) ++
          (((18 : Int) :: [] ++ 24 :: []).map fun t => (t, false)) ++
          (((26 : Int) :: [] ++ 32 :: []).map fun t => (t, true)) ++
          (((34 : Int) :: [40]).map fun t => (t, false)))).2.count
          .doubleTap = 1) ∧
    ((runGetEvent ⟨100, 30, 5⟩ initButtonState
        ((((10 : Int) :: [] ++ 16 :: []).map fun t => (t, true)) ++
          (((18 : Int) :: [] ++ 24 :: []).map fun t => (t, false)) ++
          (((26 : Int) :: [] ++ 32 :: []).map fun t => (t, true)) ++
          (((34 : Int) :: [40]).map fun t => (t, false)))).2.count
          .tap = 0) ∧
    ((runGetEvent ⟨100, 30, 5⟩ initButtonState
        ((((10 : Int) :: [] ++ 16 :: []).map fun t => (t, true)) ++
          (((18 : Int) :: [] ++ 24 :: []).map fun t => (t, false)) ++
          (((26 : Int) :: [] ++ 32 :: []).map fun t => (t, true)) ++
          (((34 : Int) :: [40]).map fun t => (t, false)))).2.count
          .longPress = 0) :=
  claim_C3_amended_doubleTap ⟨100, 30, 5⟩ (by decide) (by decide)
    (by decide) 10 16 18 24 26 32 34 [] [] [] [] [] [] [40]
    (by decide) (by decide) (by decide) (by decide) (by decide)
    (by decide) (by decide) (by decide) (by decide) (by decide)
    (by decide) (by decide)

/-- Witness for C6: two noise bursts (10, 12 reverted at 14, 20 and a
lone 30 reverted at 33, 40, 50) with `debounce_time = 5`. -/
theorem claim_C6_witness :
    (runGetEvent ⟨100, 30, 5⟩ initButtonState
      (noiseTrace [(10, [12], 14, [20]),
        (30, [], 33, [40, 50])])).1.evState = .idle ∧
    (runGetEvent ⟨100, 30, 5⟩ initButtonState
      (noiseTrace [(10, [12], 14, [20]),
        (30, [], 33, [40, 50])])).1.debouncedPressed = false :=
  ⟨(claim_C6_debounce_noise ⟨100, 30, 5⟩ (by decide)
      [(10, [12], 14, [20]), (30, [], 33, [40, 50])]
      (by decide) (by decide)).2.2,
    (claim_C6_debounce_noise ⟨100, 30, 5⟩ (by decide)
      [(10, [12], 14, [20]), (30, [], 33, [40, 50])]
      (by decide) (by decide)).2.1⟩

/-! ## LED pattern scheduler (`LedPatternManager`, src/utils/led_utils.py)

Times are rationals (`time.monotonic()` values).  Brightness/duty values
are rationals as well.  The two transcendental curves of the source —
`math.cos(2*pi*x)` in `breathing` and `math.sin(math.radians(x))` in
`rainbow` — only shape the emitted duty value and never feed back into
any control state, so the embedding takes them as parameters
(`cosTwoPi`, `sinDeg`) of `ledUpdate`.  Callbacks are modelled by their
presence (a `Bool`) plus a `callbackFired` entry in the command trace. -/

/-- Commands the manager issues to its button LED driver, plus the
firing of a completion callback. -/
inductive LedCmd
  | setLed (b : Bool)
  | stopPwm
  | startPwm (duty : ℚ)
  | changeDuty (duty : ℚ)
  | callbackFired
deriving DecidableEq, Repr

/-- The mutable fields of `LedPatternManager` (`__init__`,
led_utils.py lines 35 through 119), with `_blink_callback` and
`_transition_callback` modelled by their presence. -/
structure LedState where
  pattern : String
  lastUpdate : ℚ
  blinkOn : Bool
  blinkPeriod : ℚ
  blinkDuty : ℚ
  breathingPeriod : ℚ
  solidState : Bool
  lastBreath : ℚ
  blinkCount : ℕ
  blinkTarget : Option ℕ
  blinkCallback : Bool
  pulseStage : ℕ
  pulseStages : ℕ
  heartbeatStage : ℕ
  morseSeq : List Char
  morseIndex : ℕ
  morseElementStart : ℚ
  morseDotDuration : ℚ
  fadeoutStart : ℚ
  fadeoutDuration : ℚ
  fadeoutInitial : ℚ
  progressPercent : ℚ
  progressUpdateTime : ℚ
  nextPattern : Option String
  transitionCallback : Bool
  sosSequence : List Bool
  sosIndex : ℕ
  sosElementDuration : ℚ
  rainbowHue : ℚ
  rainbowSpeed : ℚ
  rainbowStartTime : ℚ
  colorshiftValues : List ℚ
  colorshiftIndex : ℕ
  colorshiftDuration : ℚ
  colorshiftLastChange : ℚ
  countdownStart : ℚ
  countdownDuration : ℚ
  countdownInitialBrightness : ℚ
  attentionPhase : ℕ
  attentionLastChange : ℚ
  attentionSequence : List (ℚ × ℚ)
  successPhase : ℕ
  successLastChange : ℚ
  successSequence : List (ℚ × ℚ)
  errorPhase : ℕ
  errorLastChange : ℚ
  errorSequence : List (ℚ × ℚ)

/-- `LedPatternManager.__init__` at monotonic time `now0`. -/
def initLedState (now0 : ℚ) : LedState :=
  { pattern := "solid"
    lastUpdate := now0
    blinkOn := false
    blinkPeriod := 1
    blinkDuty := 0.5
    breathingPeriod := 2.5
    solidState := true
    lastBreath := 0
    blinkCount := 0
    blinkTarget := none
    blinkCallback := false
    pulseStage := 0
    pulseStages := 10
    heartbeatStage := 0
    morseSeq := []
    morseIndex := 0
    morseElementStart := 0
    morseDotDuration := 0.2
    fadeoutStart := 0
    fadeoutDuration := 2
    fadeoutInitial := 100
    progressPercent := 0
    progressUpdateTime := 0
    nextPattern := none
    transitionCallback := false
    sosSequence := [true, false, true, false, true, false,
                    false, false,
                    true, false, true, false, true, false,
                    false, false,
                    true, false, true, false, true, false]
    sosIndex := 0
    sosElementDuration := 0.2
    rainbowHue := 0
    rainbowSpeed := 1
    rainbowStartTime := 0
    colorshiftValues := [20, 50, 80, 100]
    colorshiftIndex := 0
    colorshiftDuration := 0.3
    colorshiftLastChange := 0
    countdownStart := 0
    countdownDuration := 5
    countdownInitialBrightness := 100
    attentionPhase := 0
    attentionLastChange := 0
    attentionSequence := [(100, 0.05), (0, 0.05), (100, 0.05),
                          (0, 0.05), (100, 0.05), (0, 0.4)]
    successPhase := 0
    successLastChange := 0
    successSequence := [(30, 0.1), (0, 0.05), (60, 0.15),
                        (0, 0.05), (100, 0.3), (0, 0.2)]
    errorPhase := 0
    errorLastChange := 0
    errorSequence := [(100, 0.1), (0, 0.05), (70, 0.1),
                      (0, 0.05), (40, 0.1), (0, 0.3)] }

/-- The `**kwargs` accepted by `set_pattern`; absent keys are `none`,
`callback` is modelled by presence. -/
structure PatternArgs where
  state : Option Bool := none
  period : Option ℚ := none
  duty : Option ℚ := none
  count : Option ℕ := none
  callback : Bool := false
  nextPattern : Option String := none
  message : Option String := none
  dotDuration : Option ℚ := none
  duration : Option ℚ := none
  initial : Option ℚ := none
  percent : Option ℚ := none
  startHue : Option ℚ := none
  speed : Option ℚ := none
  elementDuration : Option ℚ := none
  levels : Option (List ℚ) := none
  sequence : Option (List (ℚ × ℚ)) := none
  initialBrightness : Option ℚ := none
  stages : Option ℕ := none
deriving Repr

/-- Python truthiness of an optional string (`if self._next_pattern:`):
`None` and the empty string are falsy. -/
def strTruthy : Option String → Bool
  | none => false
  | some s => !(s == "")

/-- Python truthiness of an optional list
(`if custom_sequence:` in `set_pattern`). -/
def listTruthy {α : Type} : Option (List α) → Bool
  | none => false
  | some [] => false
  | some (_ :: _) => true

/-- The morse dictionary of `_text_to_morse`. -/
def morseOfChar (c : Char) : Option String :=
  if c = 'A' then some ".-" else if c = 'B' then some "-..." else
  if c = 'C' then some "-.-." else if c = 'D' then some "-.." else
  if c = 'E' then some "." else if c = 'F' then some "..-." else
  if c = 'G' then some "--." else if c = 'H' then some "...." else
  if c = 'I' then some ".." else if c = 'J' then some ".---" else
  if c = 'K' then some "-.-" else if c = 'L' then some ".-.." else
  if c = 'M' then some "--" else if c = 'N' then some "-." else
  if c = 'O' then some "---" else if c = 'P' then some ".--." else
  if c = 'Q' then some "--.-" else if c = 'R' then some ".-." else
  if c = 'S' then some "..." else if c = 'T' then some "-" else
  if c = 'U' then some "..-" else if c = 'V' then some "...-" else
  if c = 'W' then some ".--" else if c = 'X' then some "-..-" else
  if c = 'Y' then some "-.--" else if c = 'Z' then some "--.." else
  if c = '0' then some "-----" else if c = '1' then some ".----" else
  if c = '2' then some "..---" else if c = '3' then some "...--" else
  if c = '4' then some "....-" else if c = '5' then some "....." else
  if c = '6' then some "-...." else if c = '7' then some "--..." else
  if c = '8' then some "---.." else if c = '9' then some "----." else
  if c = ' ' then some "/" else none

/-- `LedPatternManager._text_to_morse`: symbols separated by spaces,
letters by an extra space; a character absent from the dictionary and
different from a space contributes nothing.  (The space itself is in the
dictionary, mapped to `/`.) -/
def textToMorse (text : String) : List Char :=
  (text.toUpper.toList).flatMap fun c =>
    match morseOfChar c with
    | some m => (m.toList.flatMap fun sym => [sym, ' ']) ++ [' ']
    | none => if c = ' ' then ['/', ' '] else []

/-- `LedPatternManager._calculate_progress_duty`. -/
def calculateProgressDuty (s : LedState) : ℚ :=
  max 10 (min 100 s.progressPercent)

/-- `LedPatternManager.set_pattern(pattern, **kwargs)` (led_utils.py
lines 121 through 254), translated branch by branch in source order.
The list indexings `values[0]` / `sequence[0][0]` of the source are
rendered with `getD`; they are within bounds whenever the supplied lists
are non-empty, as every caller in the repository guarantees. -/
def setPattern (s : LedState) (now : ℚ) (p : String)
    (args : PatternArgs) : LedState × List LedCmd :=
  let s := { s with pattern := p, lastUpdate := now,
                    nextPattern := args.nextPattern,
                    transitionCallback := args.callback }
  if p = "solid" then
    let s := { s with solidState := args.state.getD true }
    (s, [LedCmd.setLed s.solidState, LedCmd.stopPwm])
  else if p = "off" then
    (s, [LedCmd.setLed false, LedCmd.stopPwm])
  else if p = "blink" then
    let s := { s with blinkPeriod := args.period.getD 0.5,
                      blinkDuty := args.duty.getD 0.5,
                      blinkCount := 0,
                      blinkTarget := args.count,
                      blinkCallback := args.callback,
                      blinkOn := false }
    (s, [LedCmd.setLed false, LedCmd.stopPwm])
  else if p = "breathing" then
    let s := { s with breathingPeriod := args.period.getD 2.5,
                      lastBreath := now }
    (s, [LedCmd.startPwm 0])
  else if p = "pulse" then
    let s := { s with pulseStage := 0,
                      pulseStages := args.stages.getD 10 }
    (s, [LedCmd.startPwm 0])
  else if p = "heartbeat" then
    let s := { s with heartbeatStage := 0 }
    (s, [LedCmd.startPwm 0])
  else if p = "morse" then
    let s := { s with morseSeq := textToMorse (args.message.getD "SOS"),
                      morseIndex := 0,
                      morseElementStart := now,
                      morseDotDuration := args.dotDuration.getD 0.2 }
    (s, [LedCmd.setLed false, LedCmd.stopPwm])
  else if p = "fadeout" then
    let s := { s with fadeoutStart := now,
                      fadeoutDuration := args.duration.getD 2,
                      fadeoutInitial := args.initial.getD 100 }
    (s, [LedCmd.startPwm s.fadeoutInitial])
  else if p = "sos" then
    let s := { s with sosIndex := 0,
                      sosElementDuration := args.elementDuration.getD 0.2 }
    (s, [LedCmd.setLed true, LedCmd.stopPwm])
  else if p = "progress" then
    let s := { s with progressPercent := args.percent.getD 0,
                      progressUpdateTime := now }
    (s, [LedCmd.startPwm (calculateProgressDuty s)])
  else if p = "rainbow" then
    let s := { s with rainbowHue := args.startHue.getD 0,
                      rainbowSpeed := args.speed.getD 1,
                      rainbowStartTime := now }
    (s, [LedCmd.startPwm 50])
  else if p = "colorshift" then
    let s := { s with colorshiftValues := args.levels.getD [20, 50, 80, 100],
                      colorshiftDuration := args.duration.getD 0.3,
                      colorshiftIndex := 0,
                      colorshiftLastChange := now }
    (s, [LedCmd.startPwm (s.colorshiftValues.getD 0 0)])
  else if p = "countdown" then
    let s := { s with countdownStart := now,
                      countdownDuration := args.duration.getD 5,
                      countdownInitialBrightness :=
                        args.initialBrightness.getD 100 }
    (s, [LedCmd.startPwm s.countdownInitialBrightness])
  else if p = "attention" then
    let s := { s with attentionPhase := 0,
                      attentionLastChange := now,
                      attentionSequence :=
                        if listTruthy args.sequence then
                          args.sequence.getD []
                        else s.attentionSequence }
    (s, [LedCmd.startPwm (s.attentionSequence.getD 0 (0, 0)).1])
  else if p = "success" then
    let s := { s with successPhase := 0,
                      successLastChange := now,
                      successSequence :=
                        if listTruthy args.sequence then
                          args.sequence.getD []
                        else s.successSequence }
    (s, [LedCmd.startPwm (s.successSequence.getD 0 (0, 0)).1])
  else if p = "error" then
    let s := { s with errorPhase := 0,
                      errorLastChange := now,
                      errorSequence :=
                        if listTruthy args.sequence then
                          args.sequence.getD []
                        else s.errorSequence }
    (s, [LedCmd.startPwm (s.errorSequence.getD 0 (0, 0)).1])
  else
    -- default to off if unknown pattern
    (s, [LedCmd.setLed false, LedCmd.stopPwm])

/-- Python float `%` for a positive modulus, used by `update` on elapsed
times (`t % period`). -/
def qmod (a b : ℚ) : ℚ := a - b * (⌊a / b⌋ : ℤ)

/-- `LedPatternManager.update()` (led_utils.py lines 256 through 548),
translated branch by branch in source order.  `now` is
`time.monotonic()`; `cosTwoPi x` stands for `math.cos(2*pi*x)` and
`sinDeg x` for `math.sin(math.radians(x))` — both shape emitted duty
values only.  List indexing of the source is rendered with `getD`;
indices are reduced modulo the list length by the source itself (or
guarded by its defaults), as every caller in the repository keeps the
sequences non-empty. -/
def ledUpdate (cosTwoPi sinDeg : ℚ → ℚ) (s : LedState) (now : ℚ) :
    LedState × List LedCmd :=
  if s.pattern = "solid" then (s, [])
  else if s.pattern = "off" then (s, [])
  else if s.pattern = "blink" then
    let elapsed := now - s.lastUpdate
    let onTime := s.blinkPeriod * s.blinkDuty
    if s.blinkOn then
      if elapsed ≥ onTime then
        let s := { s with blinkOn := false, lastUpdate := now }
        match s.blinkTarget with
        | some tgt =>
            let s := { s with blinkCount := s.blinkCount + 1 }
            if s.blinkCount ≥ tgt then
              let cb : List LedCmd :=
                if s.blinkCallback then [LedCmd.callbackFired] else []
              if strTruthy s.nextPattern then
                let r := setPattern s now (s.nextPattern.getD "") {}
                (r.1, LedCmd.setLed false :: (cb ++ r.2))
              else
                let r := setPattern s now "solid" { state := some true }
                (r.1, LedCmd.setLed false :: (cb ++ r.2))
            else (s, [LedCmd.setLed false])
        | none => (s, [LedCmd.setLed false])
      else (s, [])
    else
      if elapsed ≥ s.blinkPeriod - onTime then
        ({ s with blinkOn := true, lastUpdate := now },
          [LedCmd.setLed true])
      else (s, [])
  else if s.pattern = "breathing" then
    let t := qmod (now - s.lastBreath) s.breathingPeriod
    let duty := 10 + 90 * 0.5 * (1 - cosTwoPi (t / s.breathingPeriod))
    (s, [LedCmd.changeDuty duty])
  else if s.pattern = "pulse" then
    let t := now - s.lastUpdate
    if t > 0.8 then
      ({ s with lastUpdate := now, pulseStage := 0 }, [])
    else if t < 0.2 then
      (s, [LedCmd.changeDuty (min 100 (t * 500))])
    else
      (s, [LedCmd.changeDuty (max 0 (100 * (1 - (t - 0.2) / 0.6)))])
  else if s.pattern = "heartbeat" then
    let t := qmod (now - s.lastUpdate) 1.6
    if t < 0.15 then
      (s, [LedCmd.changeDuty (min 100 (t * 667))])
    else if t < 0.3 then
      (s, [LedCmd.changeDuty (max 0 (100 * (1 - (t - 0.15) / 0.15)))])
    else if t < 0.45 then
      (s, [LedCmd.changeDuty 0])
    else if t < 0.6 then
      (s, [LedCmd.changeDuty (min 100 (((t - 0.45) / 0.15) * 100))])
    else if t < 0.8 then
      (s, [LedCmd.changeDuty (max 0 (100 * (1 - (t - 0.6) / 0.2)))])
    else
      (s, [LedCmd.changeDuty 0])
  else if s.pattern = "morse" then
    if s.morseSeq = [] then
      if strTruthy s.nextPattern then
        setPattern s now (s.nextPattern.getD "") {}
      else (s, [])
    else
      let elementElapsed := now - s.morseElementStart
      let current := s.morseSeq.getD s.morseIndex ' '
      let ed := s.morseDotDuration
      let step :=
        if current = '.' then
          if elementElapsed < ed then (s, [LedCmd.setLed true])
          else ({ s with morseIndex := s.morseIndex + 1,
                         morseElementStart := now },
            [LedCmd.setLed false])
        else if current = '-' then
          if elementElapsed < 3 * ed then (s, [LedCmd.setLed true])
          else ({ s with morseIndex := s.morseIndex + 1,
                         morseElementStart := now },
            [LedCmd.setLed false])
        else if current = ' ' then
          if elementElapsed < ed then (s, [LedCmd.setLed false])
          else ({ s with morseIndex := s.morseIndex + 1,
                         morseElementStart := now }, [])
        else if current = '/' then
          if elementElapsed < 7 * ed then (s, [LedCmd.setLed false])
          else ({ s with morseIndex := s.morseIndex + 1,
                         morseElementStart := now }, [])
        else (s, ([] : List LedCmd))
      let s2 := step.1
      if s2.morseIndex ≥ s2.morseSeq.length then
        let s3 := { s2 with morseIndex := 0, morseElementStart := now }
        match s3.blinkTarget with
        | some tgt =>
            let s4 := { s3 with blinkCount := s3.blinkCount + 1 }
            if s4.blinkCount ≥ tgt then
              let cb : List LedCmd :=
                if s4.transitionCallback then [LedCmd.callbackFired]
                else []
              if strTruthy s4.nextPattern then
                let r := setPattern s4 now (s4.nextPattern.getD "") {}
                (r.1, step.2 ++ cb ++ r.2)
              else
                let r := setPattern s4 now "solid" { state := some true }
                (r.1, step.2 ++ cb ++ r.2)
            else (s4, step.2)
        | none => (s3, step.2)
      else (s2, step.2)
  else if s.pattern = "fadeout" then
    let elapsed := now - s.fadeoutStart
    if elapsed ≥ s.fadeoutDuration then
      if strTruthy s.nextPattern then
        let r := setPattern s now (s.nextPattern.getD "") {}
        (r.1, LedCmd.changeDuty 0 :: r.2)
      else
        let r := setPattern s now "off" {}
        (r.1, LedCmd.changeDuty 0 :: r.2)
    else
      (s, [LedCmd.changeDuty
        (s.fadeoutInitial * (1 - elapsed / s.fadeoutDuration))])
  else if s.pattern = "sos" then
    let elapsed := now - s.lastUpdate
    if elapsed ≥ s.sosElementDuration then
      let s := { s with sosIndex := (s.sosIndex + 1) % s.sosSequence.length,
                        lastUpdate := now }
      let onOff := s.sosSequence.getD s.sosIndex false
      if s.sosIndex = 0 then
        match s.blinkTarget with
        | some tgt =>
            let s := { s with blinkCount := s.blinkCount + 1 }
            if s.blinkCount ≥ tgt then
              let cb : List LedCmd :=
                if s.transitionCallback then [LedCmd.callbackFired]
                else []
              if strTruthy s.nextPattern then
                let r := setPattern s now (s.nextPattern.getD "") {}
                (r.1, LedCmd.setLed onOff :: (cb ++ r.2))
              else
                let r := setPattern s now "solid" { state := some true }
                (r.1, LedCmd.setLed onOff :: (cb ++ r.2))
            else (s, [LedCmd.setLed onOff])
        | none => (s, [LedCmd.setLed onOff])
      else (s, [LedCmd.setLed onOff])
    else (s, [])
  else if s.pattern = "progress" then
    if now - s.progressUpdateTime > 0.05 then
      ({ s with progressUpdateTime := now },
        [LedCmd.changeDuty (calculateProgressDuty s)])
    else (s, [])
  else if s.pattern = "rainbow" then
    let elapsed := now - s.rainbowStartTime
    let hue := qmod (elapsed * 90 * s.rainbowSpeed) 360
    let brightness := 50 + 50 * sinDeg hue
    ({ s with rainbowHue := hue }, [LedCmd.changeDuty brightness])
  else if s.pattern = "colorshift" then
    let elapsed := now - s.colorshiftLastChange
    if elapsed ≥ s.colorshiftDuration then
      let s := { s with colorshiftIndex :=
                          (s.colorshiftIndex + 1) % s.colorshiftValues.length,
                        colorshiftLastChange := now }
      let nb := s.colorshiftValues.getD s.colorshiftIndex 0
      if s.colorshiftIndex = 0 then
        match s.blinkTarget with
        | some tgt =>
            let s := { s with blinkCount := s.blinkCount + 1 }
            if s.blinkCount ≥ tgt then
              let cb : List LedCmd :=
                if s.transitionCallback then [LedCmd.callbackFired]
                else []
              if strTruthy s.nextPattern then
                let r := setPattern s now (s.nextPattern.getD "") {}
                (r.1, LedCmd.changeDuty nb :: (cb ++ r.2))
              else
                -- the source has no fallback here: the pattern keeps running
                (s, LedCmd.changeDuty nb :: cb)
            else (s, [LedCmd.changeDuty nb])
        | none => (s, [LedCmd.changeDuty nb])
      else (s, [LedCmd.changeDuty nb])
    else (s, [])
  else if s.pattern = "countdown" then
    let elapsed := now - s.countdownStart
    if elapsed ≥ s.countdownDuration then
      if strTruthy s.nextPattern then
        let r := setPattern s now (s.nextPattern.getD "") {}
        (r.1, LedCmd.changeDuty 0 :: r.2)
      else
        let r := setPattern s now "off" {}
        (r.1, LedCmd.changeDuty 0 :: r.2)
    else
      (s, [LedCmd.changeDuty (s.countdownInitialBrightness *
        (1 - elapsed / s.countdownDuration))])
  else if s.pattern = "attention" then
    let elapsed := now - s.attentionLastChange
    let currentDuration := (s.attentionSequence.getD s.attentionPhase
      (0, 0)).2
    if elapsed ≥ currentDuration then
      let s := { s with attentionPhase :=
                          (s.attentionPhase + 1) % s.attentionSequence.length,
                        attentionLastChange := now }
      let nb := (s.attentionSequence.getD s.attentionPhase (0, 0)).1
      if s.attentionPhase = 0 then
        match s.blinkTarget with
        | some tgt =>
            let s := { s with blinkCount := s.blinkCount + 1 }
            if s.blinkCount ≥ tgt then
              let cb : List LedCmd :=
                if s.transitionCallback then [LedCmd.callbackFired]
                else []
              if strTruthy s.nextPattern then
                let r := setPattern s now (s.nextPattern.getD "") {}
                (r.1, LedCmd.changeDuty nb :: (cb ++ r.2))
              else
                -- no fallback in the source
                (s, LedCmd.changeDuty nb :: cb)
            else (s, [LedCmd.changeDuty nb])
        | none => (s, [LedCmd.changeDuty nb])
      else (s, [LedCmd.changeDuty nb])
    else (s, [])
  else if s.pattern = "success" then
    let elapsed := now - s.successLastChange
    let currentDuration := (s.successSequence.getD s.successPhase (0, 0)).2
    if elapsed ≥ currentDuration then
      let s := { s with successPhase :=
                          (s.successPhase + 1) % s.successSequence.length,
                        successLastChange := now }
      let nb := (s.successSequence.getD s.successPhase (0, 0)).1
      if s.successPhase = 0 then
        match s.blinkTarget with
        | some tgt =>
            let s := { s with blinkCount := s.blinkCount + 1 }
            if s.blinkCount ≥ tgt then
              let cb : List LedCmd :=
                if s.transitionCallback then [LedCmd.callbackFired]
                else []
              if strTruthy s.nextPattern then
                let r := setPattern s now (s.nextPattern.getD "") {}
                (r.1, LedCmd.changeDuty nb :: (cb ++ r.2))
              else
                -- no fallback in the source
                (s, LedCmd.changeDuty nb :: cb)
            else (s, [LedCmd.changeDuty nb])
        | none => (s, [LedCmd.changeDuty nb])
      else (s, [LedCmd.changeDuty nb])
    else (s, [])
  else if s.pattern = "error" then
    let elapsed := now - s.errorLastChange
    let currentDuration := (s.errorSequence.getD s.errorPhase (0, 0)).2
    if elapsed ≥ currentDuration then
      let s := { s with errorPhase :=
                          (s.errorPhase + 1) % s.errorSequence.length,
                        errorLastChange := now }
      let nb := (s.errorSequence.getD s.errorPhase (0, 0)).1
      if s.errorPhase = 0 then
        match s.blinkTarget with
        | some tgt =>
            let s := { s with blinkCount := s.blinkCount + 1 }
            if s.blinkCount ≥ tgt then
              let cb : List LedCmd :=
                if s.transitionCallback then [LedCmd.callbackFired]
                else []
              if strTruthy s.nextPattern then
                let r := setPattern s now (s.nextPattern.getD "") {}
                (r.1, LedCmd.changeDuty nb :: (cb ++ r.2))
              else
                -- no fallback in the source
                (s, LedCmd.changeDuty nb :: cb)
            else (s, [LedCmd.changeDuty nb])
        | none => (s, [LedCmd.changeDuty nb])
      else (s, [LedCmd.changeDuty nb])
    else (s, [])
  else
    -- unknown pattern defaults to off
    (s, [LedCmd.setLed false])

/-- Repeated `update()` calls at the given instants, collecting every
driver command in order. -/
def runLedUpdates (cosTwoPi sinDeg : ℚ → ℚ) :
    LedState → List ℚ → LedState × List LedCmd
  | s, [] => (s, [])
  | s, t :: ts =>
      let p := ledUpdate cosTwoPi sinDeg s t
      let r := runLedUpdates cosTwoPi sinDeg p.1 ts
      (r.1, p.2 ++ r.2)

/-! ### Claim theorems about the LED scheduler -/

/-- One `update()` call on an `sos` pattern whose `_blink_target` is
`None` keeps the pattern `sos`, the target `None`, the cycle counter
unchanged, and fires no callback. -/
theorem ledUpdate_sos_no_target (cosF sinF : ℚ → ℚ) (s : LedState)
    (t : ℚ) (hp : s.pattern = "sos") (ht : s.blinkTarget = none) :
    (ledUpdate cosF sinF s t).1.pattern = "sos" ∧
    (ledUpdate cosF sinF s t).1.blinkTarget = none ∧
    (ledUpdate cosF sinF s t).1.blinkCount = s.blinkCount ∧
    (ledUpdate cosF sinF s t).2.count LedCmd.callbackFired = 0 := by
  have h1 : s.pattern ≠ "solid" := by rw [hp]; decide
  have h2 : s.pattern ≠ "off" := by rw [hp]; decide
  have h3 : s.pattern ≠ "blink" := by rw [hp]; decide
  have h4 : s.pattern ≠ "breathing" := by rw [hp]; decide
  have h5 : s.pattern ≠ "pulse" := by rw [hp]; decide
  have h6 : s.pattern ≠ "heartbeat" := by rw [hp]; decide
  have h7 : s.pattern ≠ "morse" := by rw [hp]; decide
  have h8 : s.pattern ≠ "fadeout" := by rw [hp]; decide
  unfold ledUpdate
  rw [if_neg h1, if_neg h2, if_neg h3, if_neg h4, if_neg h5, if_neg h6,
    if_neg h7, if_neg h8, if_pos hp]
  dsimp only
  rw [ht]
  split_ifs <;> simp [List.count_cons, hp, ht]

/-- Any run of `update()` calls on an `sos` pattern whose
`_blink_target` is `None` keeps it `sos` forever, never touches the
cycle counter, and never fires a callback. -/
theorem runLedUpdates_sos_no_target (cosF sinF : ℚ → ℚ) (ts : List ℚ) :
    ∀ s : LedState, s.pattern = "sos" → s.blinkTarget = none →
    (runLedUpdates cosF sinF s ts).1.pattern = "sos" ∧
    (runLedUpdates cosF sinF s ts).1.blinkTarget = none ∧
    (runLedUpdates cosF sinF s ts).1.blinkCount = s.blinkCount ∧
    (runLedUpdates cosF sinF s ts).2.count LedCmd.callbackFired = 0 := by
  induction ts with
  | nil => exact fun s hp ht => ⟨hp, ht, rfl, rfl⟩
  | cons t ts ih =>
      intro s hp ht
      obtain ⟨p1, p2, p3, p4⟩ := ledUpdate_sos_no_target cosF sinF s t hp ht
      obtain ⟨i1, i2, i3, i4⟩ := ih (ledUpdate cosF sinF s t).1 p1 p2
      simp only [runLedUpdates]
      exact ⟨i1, i2, by rw [i3, p3], by simp [List.count_append, p4, i4]⟩

/-- C1 (evaluation of the code at the failing input): the claim promises
that `set_pattern('sos', count=1, next_pattern='breathing')` transitions
to `breathing` after one full cycle of `update()` calls.  In the source,
`set_pattern` stores the `count` kwarg into `_blink_target` only in its
`'blink'` branch (led_utils.py line 160), so for `sos` (and likewise
`colorshift`, `attention`, `success`, `error`) the target stays `None`:
the completion check in `update()` (line 421) never fires, the pattern
never chains to `next_pattern`, falls back to nothing, and never invokes
the callback — against the claim, the docstring of `set_pattern`
("count: Number of iterations before auto-transition") and the helpers
`set_sos` / `set_card_sequence` that rely on it. -/
theorem claim_C1_sos_count_ignored (cosF sinF : ℚ → ℚ) (ts : List ℚ) :
    ((setPattern (initLedState 0) 0 "sos"
      { count := some 1, nextPattern := some "breathing" }).1.blinkTarget
      = none) ∧
    ((runLedUpdates cosF sinF
        (setPattern (initLedState 0) 0 "sos"
          { count := some 1, nextPattern := some "breathing" }).1
        ts).1.pattern = "sos") ∧
    ((runLedUpdates cosF sinF
        (setPattern (initLedState 0) 0 "sos"
          { count := some 1, nextPattern := some "breathing" }).1
        ts).1.blinkCount = 0) ∧
    ((runLedUpdates cosF sinF
        (setPattern (initLedState 0) 0 "sos"
          { count := some 1, nextPattern := some "breathing" }).1
        ts).2.count LedCmd.callbackFired = 0) := by
  obtain ⟨r1, r2, r3, r4⟩ := runLedUpdates_sos_no_target cosF sinF ts
    (setPattern (initLedState 0) 0 "sos"
      { count := some 1, nextPattern := some "breathing" }).1 rfl rfl
  exact ⟨rfl, r1, r3, r4⟩

/-- The pattern kinds recognized by `set_pattern` and `update`, in
source order. -/
def recognizedPatterns : List String :=
  ["solid", "off", "blink", "breathing", "pulse", "heartbeat", "morse",
    "fadeout", "sos", "progress", "rainbow", "colorshift", "countdown",
    "attention", "success", "error"]

/-- C8: for every pattern name outside the recognized kinds,
`set_pattern` deterministically turns the LED off (its final `else`
branch), stores the name, and `update` on the resulting state leaves the
state untouched and again just turns the LED off; both functions are
total, so no exception can be raised. -/
theorem claim_C8_unknown_pattern_off (cosF sinF : ℚ → ℚ) (s : LedState)
    (now now2 : ℚ) (p : String) (args : PatternArgs)
    (hp : p ∉ recognizedPatterns) :
    (setPattern s now p args).2 = [LedCmd.setLed false, LedCmd.stopPwm] ∧
    (setPattern s now p args).1.pattern = p ∧
    (ledUpdate cosF sinF (setPattern s now p args).1 now2).1
      = (setPattern s now p args).1 ∧
    (ledUpdate cosF sinF (setPattern s now p args).1 now2).2
      = [LedCmd.setLed false] := by
  simp only [recognizedPatterns, List.mem_cons, List.not_mem_nil,
    or_false, not_or] at hp
  obtain ⟨n1, n2, n3, n4, n5, n6, n7, n8, n9, n10, n11, n12, n13, n14,
    n15, n16⟩ := hp
  have hset : setPattern s now p args =
      ({ s with pattern := p, lastUpdate := now,
                nextPattern := args.nextPattern,
                transitionCallback := args.callback },
        [LedCmd.setLed false, LedCmd.stopPwm]) := by
    unfold setPattern
    dsimp only
    rw [if_neg n1, if_neg n2, if_neg n3, if_neg n4, if_neg n5, if_neg n6,
      if_neg n7, if_neg n8, if_neg n9, if_neg n10, if_neg n11, if_neg n12,
      if_neg n13, if_neg n14, if_neg n15, if_neg n16]
  have hupd : ledUpdate cosF sinF
      ({ s with pattern := p, lastUpdate := now,
                nextPattern := args.nextPattern,
                transitionCallback := args.callback }) now2 =
      ({ s with pattern := p, lastUpdate := now,
                nextPattern := args.nextPattern,
                transitionCallback := args.callback },
        [LedCmd.setLed false]) := by
    unfold ledUpdate
    dsimp only
    rw [if_neg n1, if_neg n2, if_neg n3, if_neg n4, if_neg n5, if_neg n6,
      if_neg n7, if_neg n8, if_neg n9, if_neg n10, if_neg n11, if_neg n12,
      if_neg n13, if_neg n14, if_neg n15, if_neg n16]
  rw [hset]
  exact ⟨rfl, rfl, by rw [hupd], by rw [hupd]⟩

/-- Witness for C8 with the unknown pattern name `disco`. -/
theorem claim_C8_witness :
    (setPattern (initLedState 0) 0 "disco" {}).2 =
      [LedCmd.setLed false, LedCmd.stopPwm] ∧
    (setPattern (initLedState 0) 0 "disco" {}).1.pattern = "disco" ∧
    (ledUpdate (fun _ => 0) (fun _ => 0)
      (setPattern (initLedState 0) 0 "disco" {}).1 1).1
      = (setPattern (initLedState 0) 0 "disco" {}).1 ∧
    (ledUpdate (fun _ => 0) (fun _ => 0)
      (setPattern (initLedState 0) 0 "disco" {}).1 1).2
      = [LedCmd.setLed false] :=
  claim_C8_unknown_pattern_off (fun _ => 0) (fun _ => 0) (initLedState 0)
    0 1 "disco" {} (by decide)

/-! ## Story selection (`pick_story`, src/utils/story_utils.py and
`select_story_for_time`, src/utils/time_utils.py)

Stories are the entries of a card's `stories` list; per the data model a
story always carries a `title` (and an audio path), while `tone` is read
with `s.get("tone", "")` and may be absent.  `random.choice` takes its
random index `r` explicitly and raises `IndexError` on an empty list;
raising code returns `Except`. -/

/-- A story entry. -/
structure Story where
  title : String
  tone : Option String
  audio : String
deriving DecidableEq, Repr

/-- Python exceptions surfacing in the embedded code. -/
inductive PyErr
  | indexError
  | keyError
  | attributeError (missing : String)
deriving DecidableEq, Repr

/-- Python `str.lower()` on the (ASCII) tone strings of the card
catalog, character by character. -/
def pyLower (s : String) : String := ⟨s.data.map Char.toLower⟩

/-- `random.choice(l)` with explicit random index `r`: uniform choice is
modelled by quantifying over `r`; the empty list raises `IndexError`. -/
def randomChoice (r : ℕ) (l : List Story) : Except PyErr Story :=
  match l with
  | [] => .error .indexError
  | a :: as =>
      .ok ((a :: as).get ⟨r % (a :: as).length, Nat.mod_lt _ (by simp)⟩)

/-- `pick_story(stories, tone=None, exclude_tone=None)`
(story_utils.py lines 24 through 35).  `if tone:` and
`elif exclude_tone:` use Python string truthiness; an empty filter
result falls through to `random.choice(stories)`. -/
def pickStory (r : ℕ) (stories : List Story)
    (tone excludeTone : Option String) : Except PyErr Story :=
  if strTruthy tone then
    let filtered := stories.filter fun s =>
      pyLower (s.tone.getD "") == pyLower (tone.getD "")
    if filtered ≠ [] then randomChoice r filtered
    else randomChoice r stories
  else if strTruthy excludeTone then
    let filtered := stories.filter fun s =>
      !(pyLower (s.tone.getD "") == pyLower (excludeTone.getD ""))
    if filtered ≠ [] then randomChoice r filtered
    else randomChoice r stories
  else randomChoice r stories

/-- `select_story_for_time(stories, is_calm)` (time_utils.py lines 28
through 63): during calm hours try `pick_story(tone="calmo")`, catching
any exception; otherwise (or on failure) choose among the non-calm
stories when there are any; finally fall back to any story — this last
`random.choice` is outside every `try` and can raise. -/
def selectStoryForTime (r : ℕ) (stories : List Story) (isCalm : Bool) :
    Except PyErr Story :=
  let rest :=
    let nonCalm := stories.filter fun s =>
      !(pyLower (s.tone.getD "") == "calmo")
    if nonCalm ≠ [] then randomChoice r nonCalm
    else randomChoice r stories
  if isCalm then
    match pickStory r stories (some "calmo") none with
    | .ok st => .ok st
    | .error _ => rest
  else rest

/-- `random.choice` on a non-empty list succeeds with a member. -/
theorem randomChoice_ok (r : ℕ) (l : List Story) (h : l ≠ []) :
    ∃ st, randomChoice r l = .ok st ∧ st ∈ l := by
  match l with
  | [] => exact absurd rfl h
  | a :: as => exact ⟨_, rfl, List.get_mem _ _ _⟩

/-- C10: for every non-empty story list and every combination of `tone`
and `exclude_tone` (including tones matching nothing and stories without
a tone), `pick_story` returns a member of the list and never raises. -/
theorem claim_C10_pick_story_total (stories : List Story)
    (hne : stories ≠ []) (tone excludeTone : Option String) (r : ℕ) :
    ∃ st, pickStory r stories tone excludeTone = .ok st ∧
      st ∈ stories := by
  unfold pickStory
  dsimp only
  split_ifs with h1 h2 h3 h4
  · obtain ⟨st, hok, hmem⟩ := randomChoice_ok r _ h2
    exact ⟨st, hok, List.mem_of_mem_filter hmem⟩
  · exact randomChoice_ok r stories hne
  · obtain ⟨st, hok, hmem⟩ := randomChoice_ok r _ h4
    exact ⟨st, hok, List.mem_of_mem_filter hmem⟩
  · exact randomChoice_ok r stories hne
  · exact randomChoice_ok r stories hne

/-- Witness for C10: one story without a tone, a filter that matches
nothing. -/
theorem claim_C10_witness :
    ∃ st, pickStory 0 [{ title := "a", tone := none, audio := "a.mp3" }]
        (some "misterioso") none = .ok st ∧
      st ∈ [{ title := "a", tone := none, audio := "a.mp3" }] :=
  claim_C10_pick_story_total
    [{ title := "a", tone := none, audio := "a.mp3" }] (by decide)
    (some "misterioso") none 0

/-- C7: when both the calm-tagged subset and the non-calm subset are
non-empty, `select_story_for_time` with `is_calm = true` always returns
a calm-tagged story, and with `is_calm = false` always returns a
non-calm story, for every random draw `r`; the whole-list fallback can
only be reached when the preferred subset is empty. -/
theorem claim_C7_selection_respects_tone (stories : List Story) (r : ℕ)
    (hcalm : (stories.filter fun s =>
      pyLower (s.tone.getD "") == "calmo") ≠ [])
    (hother : (stories.filter fun s =>
      !(pyLower (s.tone.getD "") == "calmo")) ≠ []) :
    (∃ st, selectStoryForTime r stories true = .ok st ∧
      st ∈ stories.filter fun s => pyLower (s.tone.getD "") == "calmo") ∧
    (∃ st, selectStoryForTime r stories false = .ok st ∧
      st ∈ stories.filter fun s =>
        !(pyLower (s.tone.getD "") == "calmo")) := by
  constructor
  · obtain ⟨st, hok, hmem⟩ := randomChoice_ok r
      (stories.filter fun s => pyLower (s.tone.getD "") == "calmo") hcalm
    refine ⟨st, ?_, hmem⟩
    have hlo : pyLower "calmo" = "calmo" := by decide
    have hpick : pickStory r stories (some "calmo") none =
        randomChoice r (stories.filter fun s =>
          pyLower (s.tone.getD "") == "calmo") := by
      simp [pickStory, strTruthy, hlo, hcalm]
    simp [selectStoryForTime, hpick, hok]
  · obtain ⟨st, hok, hmem⟩ := randomChoice_ok r
      (stories.filter fun s => !(pyLower (s.tone.getD "") == "calmo"))
      hother
    refine ⟨st, ?_, hmem⟩
    simp [selectStoryForTime, hother, hok]

/-- Witness for C7 with one calm and one adventurous story. -/
theorem claim_C7_witness :
    (∃ st, selectStoryForTime 1
        [{ title := "a", tone := some "calmo", audio := "a.mp3" },
          { title := "b", tone := some "avventuroso", audio := "b.mp3" }]
        true = .ok st ∧
      st ∈ ([{ title := "a", tone := some "calmo", audio := "a.mp3" },
          { title := "b", tone := some "avventuroso",
            audio := "b.mp3" }].filter fun s =>
        pyLower (s.tone.getD "") == "calmo")) ∧
    (∃ st, selectStoryForTime 1
        [{ title := "a", tone := some "calmo", audio := "a.mp3" },
          { title := "b", tone := some "avventuroso", audio := "b.mp3" }]
        false = .ok st ∧
      st ∈ ([{ title := "a", tone := some "calmo", audio := "a.mp3" },
          { title := "b", tone := some "avventuroso",
            audio := "b.mp3" }].filter fun s =>
        !(pyLower (s.tone.getD "") == "calmo"))) :=
  claim_C7_selection_respects_tone
    [{ title := "a", tone := some "calmo", audio := "a.mp3" },
      { title := "b", tone := some "avventuroso", audio := "b.mp3" }]
    1 (by decide) (by decide)

/-! ## Supervisory main loop (`main()`, src/box.py)

One iteration of the `while state != STATE_SHUTTING_DOWN` loop,
restricted to the inputs the claims concern: no pygame keyboard event is
pending, and the time-gated volume / battery polls (which issue no state
machine transition) are omitted.  External collaborators (card loading,
file existence, calm-time clock, the random draw) are supplied through
`LoopEnv`.  Audio and timing side effects become `SupAction` entries.

The source calls `led_manager.set_shutdown_sequence()` in its long-press
branch (box.py line 313) and in its idle-timeout branch (line 412);
`LedPatternManager` defines `set_shutdown` (led_utils.py line 597) but
no `set_shutdown_sequence`, so both calls raise `AttributeError`, which
the embedding renders as an `Except.error`.  `IDLE_SHUTDOWN_TIMEOUT_MINUTES`
is imported from `config.app_config`, which does not define it; the
embedding takes the intended configured value as an environment field. -/

/-- Supervisor states (`STATE_IDLE`, `STATE_PLAYING`, `STATE_PAUSED`,
`STATE_SHUTTING_DOWN` of app_config.py). -/
inductive PlayState
  | idle | playing | paused | shuttingDown
deriving DecidableEq, Repr

/-- Card data as returned by `load_card_stories(uid)`; `none` models a
missing or invalid JSON file. -/
structure CardData where
  stories : List Story
deriving Repr

/-- External collaborators and configuration of one loop iteration. -/
structure LoopEnv where
  cosTwoPi : ℚ → ℚ
  sinDeg : ℚ → ℚ
  loadCard : String → Option CardData
  audioExists : String → Bool
  isCalmTime : Bool
  rand : ℕ
  idleShutdownTimeoutMinutes : ℚ

/-- The loop variables of `main()` that drive the state machine. -/
structure SupState where
  state : PlayState
  currentCardUid : Option String
  currentBgmTone : Option String
  lastStoryPlayedTime : ℚ
  led : LedState

/-- Side effects of one iteration, in order of occurrence. -/
inductive SupAction
  | led (c : LedCmd)
  | musicPause
  | musicUnpause
  | playSound (kind : String)
  | waitForSound
  | sleep
  | stopBgm
  | mixerStop
  | playNarration (audio : String) (tone : String)
deriving DecidableEq, Repr

/-- The `if state == STATE_IDLE / STATE_PLAYING / STATE_PAUSED` block at
the end of the loop body (box.py lines 406 through 436).  The
idle-timeout check only exists in the `STATE_IDLE` branch; the `PAUSED`
branch just refreshes the breathing pattern, despite the comment at
lines 431 through 436 claiming a paused box eventually shuts down. -/
def stateStage (env : LoopEnv) (now : ℚ) (musicBusy mixerBusy : Bool)
    (s : SupState) (acs : List SupAction) :
    Except PyErr (SupState × List SupAction) :=
  if s.state = .idle then
    let r := setPattern s.led now "breathing" { period := some 2.5 }
    let s := { s with led := r.1 }
    let acs := acs ++ r.2.map SupAction.led
    if env.idleShutdownTimeoutMinutes > 0 then
      if now - s.lastStoryPlayedTime > env.idleShutdownTimeoutMinutes * 60
      then
        -- box.py line 412: led_manager.set_shutdown_sequence() — no such
        -- attribute on LedPatternManager, the call raises
        Except.error (.attributeError "set_shutdown_sequence")
      else .ok (s, acs)
    else .ok (s, acs)
  else if s.state = .playing then
    if ¬musicBusy ∧ ¬mixerBusy then
      let r := setPattern s.led now "fadeout"
        { duration := some 1, nextPattern := some "breathing" }
      .ok ({ s with led := r.1, state := .idle, currentCardUid := none },
        acs ++ r.2.map SupAction.led)
    else .ok (s, acs)
  else if s.state = .paused then
    let r := setPattern s.led now "breathing" { period := some 2.5 }
    .ok ({ s with led := r.1 }, acs ++ r.2.map SupAction.led)
  else .ok (s, acs)

/-- The card-reading section of the loop body (box.py lines 324 through
404): a new, different UID interrupts the current story and loads the
card; every error path clears the session, returns to idle and skips the
state block (`continue`); the success path starts playback and falls
through to the state block. -/
def cardStage (env : LoopEnv) (now : ℚ) (uid : Option String)
    (musicBusy mixerBusy : Bool) (s : SupState) (acs : List SupAction) :
    Except PyErr (SupState × List SupAction) :=
  match uid with
  | none => stateStage env now musicBusy mixerBusy s acs
  | some u =>
      if u ≠ "" ∧ some u ≠ s.currentCardUid then
        let s := { s with lastStoryPlayedTime := now,
                          currentCardUid := some u }
        let acs := acs ++ [SupAction.stopBgm, SupAction.mixerStop]
        let r := setPattern s.led now "attention"
          { count := some 1, nextPattern := some "breathing" }
        let s := { s with led := r.1 }
        let acs := acs ++ r.2.map SupAction.led ++
          [SupAction.playSound "transition", SupAction.waitForSound,
            SupAction.sleep]
        match env.loadCard u with
        | none =>
            let r := setPattern s.led now "colorshift"
              { levels := some [100, 0, 100, 0, 100, 0],
                duration := some 0.1, count := some 1,
                nextPattern := some "breathing" }
            .ok ({ s with led := r.1, currentCardUid := none,
                          state := .idle },
              acs ++ r.2.map SupAction.led ++
                [SupAction.playSound "card_invalid", SupAction.waitForSound,
                  SupAction.sleep, SupAction.playSound "error"])
        | some card =>
            if card.stories = [] then
              let r := setPattern s.led now "colorshift"
                { levels := some [50, 0, 50, 0], duration := some 0.2,
                  count := some 3, nextPattern := some "breathing" }
              .ok ({ s with led := r.1, currentCardUid := none,
                            state := .idle },
                acs ++ r.2.map SupAction.led ++
                  [SupAction.playSound "card_invalid",
                    SupAction.waitForSound, SupAction.sleep,
                    SupAction.playSound "error"])
            else
              match selectStoryForTime env.rand card.stories
                env.isCalmTime with
              | .error e => .error e
              | .ok story =>
                  match story.tone with
                  | none =>
                      -- box.py line 378 logs selected_story['tone'] by
                      -- direct indexing: KeyError on a tone-less story
                      Except.error .keyError
                  | some tone =>
                      if ¬ env.audioExists story.audio then
                        let r := setPattern s.led now "error"
                          { count := some 2,
                            nextPattern := some "breathing" }
                        .ok ({ s with led := r.1, currentCardUid := none,
                                      state := .idle },
                          acs ++ r.2.map SupAction.led ++
                            [SupAction.playSound "card_invalid",
                              SupAction.waitForSound, SupAction.sleep,
                              SupAction.playSound "error"])
                      else
                        let acs := acs ++
                          [SupAction.playSound "card_valid",
                            SupAction.waitForSound, SupAction.sleep,
                            SupAction.playNarration story.audio tone]
                        let r := setPattern s.led now "colorshift"
                          { levels := some [30, 60, 100, 60, 30],
                            duration := some 0.12, count := some 1,
                            nextPattern := some "solid" }
                        stateStage env now musicBusy mixerBusy
                          { s with led := r.1, state := .playing,
                                   currentBgmTone := some tone,
                                   lastStoryPlayedTime := now }
                          (acs ++ r.2.map SupAction.led)
      else stateStage env now musicBusy mixerBusy s acs

/-- One iteration of the main loop (box.py lines 155 through 449) under
the scoping described above: LED update, shutdown-state check, button
event dispatch, card reading, state block. -/
def mainLoopIter (env : LoopEnv) (s : SupState) (now : ℚ)
    (buttonEvent : BtnEvent) (uid : Option String)
    (musicBusy mixerBusy : Bool) :
    Except PyErr (SupState × List SupAction) :=
  let u := ledUpdate env.cosTwoPi env.sinDeg s.led now
  let s := { s with led := u.1 }
  let acs : List SupAction := u.2.map SupAction.led
  -- `if state == STATE_SHUTTING_DOWN: continue`
  if s.state = .shuttingDown then .ok (s, acs)
  else
    match buttonEvent with
    | .tap =>
        if s.state = .playing then
          let acs := acs ++ [SupAction.musicPause,
            SupAction.playSound "pause", SupAction.waitForSound]
          let r := setPattern s.led now "breathing" { period := some 2.5 }
          cardStage env now uid musicBusy mixerBusy
            { s with led := r.1, state := .paused }
            (acs ++ r.2.map SupAction.led)
        else if s.state = .paused then
          let acs := acs ++ [SupAction.musicUnpause,
            SupAction.playSound "resume", SupAction.waitForSound]
          let r := setPattern s.led now "solid" { state := some true }
          cardStage env now uid musicBusy mixerBusy
            { s with led := r.1, state := .playing }
            (acs ++ r.2.map SupAction.led)
        else cardStage env now uid musicBusy mixerBusy s acs
    | .doubleTap =>
        if strTruthy s.currentCardUid ∧ (s.state = .playing ∨
            s.state = .paused ∨ s.state = .idle) then
          let acs := acs ++ [SupAction.stopBgm, SupAction.mixerStop]
          let r := setPattern s.led now "rainbow" { speed := some 1.5 }
          let s := { s with led := r.1 }
          let acs := acs ++ r.2.map SupAction.led ++
            [SupAction.playSound "transition", SupAction.waitForSound,
              SupAction.sleep]
          match env.loadCard (s.currentCardUid.getD "") with
          | some card =>
              if card.stories ≠ [] then
                match selectStoryForTime env.rand card.stories
                  env.isCalmTime with
                | .error e => .error e
                | .ok story =>
                    let tone := story.tone.getD "calmo"
                    if env.audioExists story.audio then
                      let acs := acs ++
                        [SupAction.playNarration story.audio tone]
                      let r := setPattern s.led now "success"
                        { count := some 1, nextPattern := some "solid" }
                      cardStage env now uid musicBusy mixerBusy
                        { s with led := r.1, state := .playing,
                                 currentBgmTone := some tone }
                        (acs ++ r.2.map SupAction.led)
                    else
                      let r := setPattern s.led now "error"
                        { count := some 2, nextPattern := some "breathing" }
                      cardStage env now uid musicBusy mixerBusy
                        { s with led := r.1, state := .idle }
                        (acs ++ r.2.map SupAction.led ++
                          [SupAction.playSound "error"])
              else
                let r := setPattern s.led now "solid" { state := some true }
                cardStage env now uid musicBusy mixerBusy
                  { s with led := r.1, state := .idle }
                  (acs ++ r.2.map SupAction.led ++
                    [SupAction.playSound "error"])
          | none =>
              let r := setPattern s.led now "solid" { state := some true }
              cardStage env now uid musicBusy mixerBusy
                { s with led := r.1, state := .idle }
                (acs ++ r.2.map SupAction.led ++
                  [SupAction.playSound "error"])
        else cardStage env now uid musicBusy mixerBusy s acs
    | .longPress =>
        -- box.py line 313: led_manager.set_shutdown_sequence() — the
        -- method does not exist (led_utils.py defines set_shutdown), so
        -- the branch raises before any shutdown side effect runs
        Except.error (.attributeError "set_shutdown_sequence")
    | .noEvent => cardStage env now uid musicBusy mixerBusy s acs

/-! ### Claim theorems about the supervisor -/

/-- C2 (evaluation of the code at the failing input): the claim promises
that a `LongPress` in any supervisor state transitions to
`ShuttingDown` with the audio stopped and no further processing.  In
the source, the long-press branch first calls
`led_manager.set_shutdown_sequence()` (box.py line 313), a method
`LedPatternManager` does not define (it defines `set_shutdown`,
led_utils.py line 597), so the iteration raises `AttributeError` before
`play_shutdown_sound`, `stop_bgm` or the `STATE_SHUTTING_DOWN`
assignment can run; the loop is aborted through the outer exception
handler instead of transitioning. -/
theorem claim_C2_longPress_raises (env : LoopEnv) (s : SupState)
    (now : ℚ) (uid : Option String) (musicBusy mixerBusy : Bool)
    (h : s.state ≠ .shuttingDown) :
    mainLoopIter env s now .longPress uid musicBusy mixerBusy =
      .error (.attributeError "set_shutdown_sequence") := by
  unfold mainLoopIter
  dsimp only
  rw [if_neg (by simpa using h)]

/-- A loop environment for the concrete supervisor witnesses. -/
def witnessEnv : LoopEnv :=
  { cosTwoPi := fun _ => 0
    sinDeg := fun _ => 0
    loadCard := fun _ => none
    audioExists := fun _ => false
    isCalmTime := false
    rand := 0
    idleShutdownTimeoutMinutes := 1 }

/-- A supervisor state as set up at the top of `main()`, here in the
`paused` state with a story last started at time 0. -/
def witnessSupState (ps : PlayState) : SupState :=
  { state := ps
    currentCardUid := some "000001"
    currentBgmTone := some "calmo"
    lastStoryPlayedTime := 0
    led := initLedState 0 }

/-- Witness for C2 in the `playing` state. -/
theorem claim_C2_witness :
    mainLoopIter witnessEnv (witnessSupState .playing) 100 .longPress
      none true false =
      .error (.attributeError "set_shutdown_sequence") :=
  claim_C2_longPress_raises witnessEnv (witnessSupState .playing) 100
    none true false (by decide)

/-- The state block keeps a paused supervisor paused: only the breathing
pattern is refreshed. -/
theorem stateStage_paused (env : LoopEnv) (now : ℚ)
    (musicBusy mixerBusy : Bool) (s : SupState) (acs : List SupAction)
    (hstate : s.state = .paused) :
    stateStage env now musicBusy mixerBusy s acs =
      .ok ({ s with led := (setPattern s.led now "breathing"
          { period := some 2.5 }).1 },
        acs ++ (setPattern s.led now "breathing"
          { period := some 2.5 }).2.map SupAction.led) := by
  unfold stateStage
  rw [if_neg (by simp [hstate]), if_neg (by simp [hstate]),
    if_pos hstate]

/-- C9 (evaluation of the code at the failing input): the claim promises
that in every state — paused included — an elapsed idle timeout makes
the next iteration perform the shutdown sequence and transition to
`ShuttingDown`.  In the source the timeout check lives only inside the
`STATE_IDLE` branch (box.py lines 406 through 421); with the supervisor
paused, an arbitrarily over-elapsed timeout leaves the iteration a
normal `ok` that stays `paused` — against the claim and the source's
own comment (lines 431 through 436) that a long-paused box "will shut
down".  (The idle branch itself cannot complete the sequence either: it
calls the nonexistent `set_shutdown_sequence`, and
`IDLE_SHUTDOWN_TIMEOUT_MINUTES` is missing from app_config.py.) -/
theorem claim_C9_paused_timeout_ignored (env : LoopEnv) (s : SupState)
    (now : ℚ) (musicBusy mixerBusy : Bool)
    (hstate : s.state = .paused)
    (htimeout : env.idleShutdownTimeoutMinutes > 0)
    (helapsed : now - s.lastStoryPlayedTime >
      env.idleShutdownTimeoutMinutes * 60) :
    ∃ p, mainLoopIter env s now .noEvent none musicBusy mixerBusy =
      .ok p ∧ p.1.state = .paused := by
  unfold mainLoopIter
  dsimp only
  rw [if_neg (by simp [hstate])]
  unfold cardStage
  rw [stateStage_paused env now musicBusy mixerBusy _ _
    (by simpa using hstate)]
  exact ⟨_, rfl, by simpa using hstate⟩

/-- Witness for C9: paused since time 0, polled at time 3600 with a
1-minute timeout. -/
theorem claim_C9_witness :
    ∃ p, mainLoopIter witnessEnv (witnessSupState .paused) 3600 .noEvent
      none true false = .ok p ∧ p.1.state = .paused :=
  claim_C9_paused_timeout_ignored witnessEnv (witnessSupState .paused)
    3600 true false (by decide) (by norm_num [witnessEnv])
    (by norm_num [witnessEnv, witnessSupState])
